import Mathlib

/-!
Verification of the Booking_agent travel-booking repository.

This file shallowly embeds the core resolution / matching / rendering logic of
the repository (business_logic.py, hotel_mapper.py, utils.py, tripxplo_api.py)
into Lean 4 and proves, or refutes, the frozen claims about it.

Modelling conventions:
* Python values flowing through the heterogeneously-shaped JSON-like records
  are modelled by the inductive type `PyVal` (None, bool, numbers as rationals,
  strings, lists, dicts as association lists).  Python int/float are both
  `PyVal.num`; integral values print the way Python prints ints, which is the
  only numeric rendering the data and the claims exercise.
* Operations that can raise (attribute access on a non-dict, iterating a
  non-iterable, `.lower()`/`.upper()`/`.strip()` on a non-string) return
  `Except PyErr`; code regions wrapped in `try/except` in the source catch the
  error at exactly the scope the source does.
* `ast.literal_eval` of a CSV cell is modelled by an `Option PyVal` field:
  `some v` when the cell parses to the value `v`, `none` when parsing raises.
* Network collaborators (token login, package list, destination details,
  per-package hotel list) are inputs gathered in an `Env` record.  The flight
  branch of `book_travel` is wholly wrapped in `try/except` in the source,
  always produces some string, and no claim depends on its contents, so its
  resulting text is supplied by the environment as `Env.flight`.
* Python's stable `list.sort(key=...)` is modelled by `List.insertionSort`,
  which is the stable sort for the induced total preorder.
-/

namespace BookingAgent

/-- Python-like dynamic values: None, bools, numbers (int/float as `ℚ`),
strings, lists and dicts (association lists in insertion order). -/
inductive PyVal where
  | none
  | bool (b : Bool)
  | num (q : ℚ)
  | str (s : String)
  | list (xs : List PyVal)
  | dict (kvs : List (String × PyVal))

/-- Python truthiness of a value. -/
def truthy : PyVal → Bool
  | PyVal.none => false
  | PyVal.bool b => b
  | PyVal.num q => decide (q ≠ 0)
  | PyVal.str s => decide (s ≠ "")
  | PyVal.list xs => !xs.isEmpty
  | PyVal.dict kvs => !kvs.isEmpty

/-- Python `a or b`: the first operand when it is truthy, otherwise the second. -/
def pyOr (a b : PyVal) : PyVal := if truthy a then a else b

/-- Python `d.get(k, default)` on an association list: the stored value when the key
is present (even if that value is `None`), the default otherwise. -/
def pyDictGetD (kvs : List (String × PyVal)) (k : String) (d : PyVal) : PyVal :=
  (kvs.lookup k).getD d

/-- Lookup `v.get(k)` for a value already known (or assumed) to be a dict; on
non-dicts this total version returns `None` and is only used where the source
guarantees a dict.  The raising variant is `pyGetE` below. -/
def pyGet (v : PyVal) (k : String) : PyVal :=
  match v with
  | PyVal.dict kvs => pyDictGetD kvs k PyVal.none
  | _ => PyVal.none

/-- Python `v == s` for a string literal `s`: true exactly when `v` is that
string (Python equality between a str and a non-str is `False`). -/
def pyEqStr (v : PyVal) (s : String) : Bool :=
  match v with
  | PyVal.str t => decide (t = s)
  | _ => false

mutual
/-- Structural equality of `PyVal`s, modelling Python `==` on the JSON-like
values that occur in the data (used for `set` deduplication). -/
def pyValBEq : PyVal → PyVal → Bool
  | PyVal.none, PyVal.none => true
  | PyVal.bool a, PyVal.bool b => a == b
  | PyVal.num a, PyVal.num b => a == b
  | PyVal.str a, PyVal.str b => a == b
  | PyVal.list xs, PyVal.list ys => pyValListBEq xs ys
  | PyVal.dict xs, PyVal.dict ys => pyValKVBEq xs ys
  | _, _ => false
def pyValListBEq : List PyVal → List PyVal → Bool
  | [], [] => true
  | x :: xs, y :: ys => pyValBEq x y && pyValListBEq xs ys
  | _, _ => false
def pyValKVBEq : List (String × PyVal) → List (String × PyVal) → Bool
  | [], [] => true
  | (k1, v1) :: xs, (k2, v2) :: ys => k1 == k2 && pyValBEq v1 v2 && pyValKVBEq xs ys
  | _, _ => false
end

/-- Insert a value into a Python-`set`-modelling list unless an equal value is
already present (first occurrence wins; Python set iteration order is
unspecified, insertion order is the deterministic choice here). -/
def addToSet (l : List PyVal) (v : PyVal) : List PyVal :=
  if l.any (fun w => pyValBEq w v) then l else l ++ [v]

/-- Decimal digits of a natural number, most significant first; the first
argument is structural fuel (any bound strictly above the number works). -/
def natReprAux : ℕ → ℕ → List Char
  | 0, _ => []
  | fuel + 1, n =>
    if n < 10 then [Char.ofNat (48 + n)]
    else natReprAux fuel (n / 10) ++ [Char.ofNat (48 + n % 10)]

/-- Decimal rendering of a natural number, as Python renders an int. -/
def natRepr (n : ℕ) : List Char := natReprAux (n + 1) n

/-- Decimal rendering of an integer, as Python renders an int. -/
def intRepr (z : ℤ) : List Char :=
  if z < 0 then '-' :: natRepr z.natAbs else natRepr z.toNat

/-- Rendering of a numeric value.  Integral values render exactly as Python
renders an int; non-integral rationals (which the repository data never
produces) render as `num/den`. -/
def ratRepr (q : ℚ) : String :=
  if q.den = 1 then String.mk (intRepr q.num)
  else String.mk (intRepr q.num ++ '/' :: natRepr q.den)

/-- Numeric value of a list of decimal digit characters. -/
def digitsVal (cs : List Char) : ℕ :=
  cs.foldl (fun a c => 10 * a + (c.toNat - 48)) 0

/-- A single-quote character, used when rendering Python string reprs. -/
def sq : String := String.singleton (Char.ofNat 39)

mutual
/-- Python `repr` of a value (as used for elements when rendering lists and
dicts inside f-strings). -/
def pyRepr : PyVal → String
  | PyVal.none => "None"
  | PyVal.bool b => if b then "True" else "False"
  | PyVal.num q => ratRepr q
  | PyVal.str s => sq ++ s ++ sq
  | PyVal.list xs => "[" ++ pyReprList xs ++ "]"
  | PyVal.dict kvs => "\x7b" ++ pyReprKVs kvs ++ "\x7d"
def pyReprList : List PyVal → String
  | [] => ""
  | [x] => pyRepr x
  | x :: y :: xs => pyRepr x ++ ", " ++ pyReprList (y :: xs)
def pyReprKVs : List (String × PyVal) → String
  | [] => ""
  | [(k, v)] => sq ++ k ++ sq ++ ": " ++ pyRepr v
  | (k, v) :: kv :: kvs => sq ++ k ++ sq ++ ": " ++ pyRepr v ++ ", " ++ pyReprKVs (kv :: kvs)
end

/-- Python `str()` of a value, as interpolated by f-strings. -/
def pyStr : PyVal → String
  | PyVal.str s => s
  | v => pyRepr v

/-- Whitespace characters stripped by Python `str.strip()` (the ASCII ones the
data can contain). -/
def isPySpace (c : Char) : Bool :=
  c == ' ' || c == '\t' || c == '\n' || c == '\r'

/-- Python `str.strip()` on a character list. -/
def pyStripChars (cs : List Char) : List Char :=
  ((cs.dropWhile isPySpace).reverse.dropWhile isPySpace).reverse

/-- Python `str.strip()`. -/
def pyStrip (s : String) : String := String.mk (pyStripChars s.data)

/-- Helper for `pyTitle`: the flag records whether the previous character was
alphabetic (Python title-cases a letter after a non-letter, lower-cases a
letter after a letter). -/
def pyTitleGo : Bool → List Char → List Char
  | _, [] => []
  | prevAlpha, c :: cs =>
    (if c.isAlpha then (if prevAlpha then c.toLower else c.toUpper) else c)
      :: pyTitleGo c.isAlpha cs

/-- Python `str.title()` (for the ASCII city names in the lookup table). -/
def pyTitle (s : String) : String := String.mk (pyTitleGo false s.data)

/-- Python `str.upper()` (ASCII, as needed by meal-plan codes). -/
def pyUpper (s : String) : String := String.mk (s.data.map Char.toUpper)

/-- Python `str.lower()` (ASCII). -/
def pyLower (s : String) : String := String.mk (s.data.map Char.toLower)

/-- Boolean infix test on lists (`needle` occurs contiguously in `hay`). -/
def listContainsSeg (hay needle : List Char) : Bool :=
  match hay with
  | [] => decide (needle = [])
  | _ :: tl => needle.isPrefixOf hay || listContainsSeg tl needle

/-- Python `needle in hay` on strings. -/
def strContains (hay needle : String) : Bool :=
  listContainsSeg hay.data needle.data

/-- Python `s.split(sep)` for a one-character separator, on character lists. -/
def splitOnChar (sep : Char) : List Char → List (List Char)
  | [] => [[]]
  | c :: cs =>
    match splitOnChar sep cs with
    | [] => [[]]
    | g :: gs => if c = sep then [] :: g :: gs else (c :: g) :: gs

/-- Parse a nonempty all-digit character list as a natural number. -/
def parseDigits? (cs : List Char) : Option ℕ :=
  if cs ≠ [] ∧ cs.all Char.isDigit then some (digitsVal cs) else Option.none

/-- Magnitude part of Python `float()`: digits with an optional decimal point
(at least one digit overall). -/
def pyFloatMag? (cs : List Char) : Option ℚ :=
  match splitOnChar '.' cs with
  | [ip] => (parseDigits? ip).map (fun n => (n : ℚ))
  | [ip, fp] =>
    if (ip ++ fp) ≠ [] ∧ (ip ++ fp).all Char.isDigit then
      some ((digitsVal ip : ℚ) + (digitsVal fp : ℚ) / (10 : ℚ) ^ fp.length)
    else Option.none
  | _ => Option.none

/-- Python `float(s)` on the decimal forms the data produces, `none` when
`float` would raise `ValueError`. -/
def pyFloat? (s : String) : Option ℚ :=
  match s.data with
  | [] => Option.none
  | c :: rest =>
    if c = '-' then (pyFloatMag? rest).map (fun q => -q)
    else if c = '+' then pyFloatMag? rest
    else pyFloatMag? (c :: rest)

/-- A raised Python exception, carrying a short description (the claims never
inspect exception messages). -/
structure PyErr where
  msg : String

/-- The `AttributeError` raised by attribute access on an unsupported value. -/
def attrErr : PyErr := ⟨"AttributeError"⟩

/-- The `TypeError` raised by iterating a non-iterable. -/
def typeErr : PyErr := ⟨"TypeError"⟩

/-- Exception raised out of the token login helper. -/
def tokenErr : PyErr := ⟨"token fetch error"⟩

/-- Python `v.get(k, d)`: raises `AttributeError` unless `v` is a dict. -/
def pyGetDE (v : PyVal) (k : String) (d : PyVal) : Except PyErr PyVal :=
  match v with
  | PyVal.dict kvs => Except.ok (pyDictGetD kvs k d)
  | _ => Except.error attrErr

/-- Python `v.get(k)`: raises `AttributeError` unless `v` is a dict. -/
def pyGetE (v : PyVal) (k : String) : Except PyErr PyVal :=
  pyGetDE v k PyVal.none

/-- Python `for x in v`: lists yield elements, strings yield one-character
strings, dicts yield their keys, anything else raises `TypeError`. -/
def pyIterE : PyVal → Except PyErr (List PyVal)
  | PyVal.list xs => Except.ok xs
  | PyVal.str s => Except.ok (s.data.map (fun c => PyVal.str (String.singleton c)))
  | PyVal.dict kvs => Except.ok (kvs.map (fun kv => PyVal.str kv.1))
  | _ => Except.error attrErr

/-- Use a value as a string (`.lower()`, `.strip()`, `.upper()` receivers):
raises `AttributeError` on non-strings. -/
def asStrE : PyVal → Except PyErr String
  | PyVal.str s => Except.ok s
  | _ => Except.error attrErr

/-! ### utils.py -/

/-- The static city → IATA table of utils.py, in source order. -/
def CITY_TO_IATA : List (String × String) :=
  [("Kodaikanal", "MAA"), ("Kullu", "KUU"), ("Kumarakom", "COK"), ("Kuta", "DPS"),
   ("Manali", "KUU"), ("Meghalaya", "SHL"), ("Munnar", "COK"), ("Mysore", "MYQ"),
   ("Neil Island", "IXZ"), ("Ooty", "CJB"), ("Pahalgam", "SXR"), ("Port Blair", "IXZ"),
   ("Seminyak", "DPS"), ("Shillong", "SHL"), ("Shimla", "SLV"), ("Sikkim", "PYG"),
   ("Siliguri", "IXB"), ("Srinagar", "SXR"), ("Ubud", "DPS"), ("Varkala", "TRV"),
   ("Agra", "AGR"), ("Alleppey", "COK"), ("Andaman", "IXZ"), ("Bali", "DPS"),
   ("Chandigarh", "IXC"), ("Cherrapunjee", "SHL"), ("Coimbatore", "CJB"),
   ("Coonoor", "CJB"), ("Coorg", "IXM"), ("Darjeeling", "IXB"), ("Delhi", "DEL"),
   ("Dwaki", "SHL"), ("Gangtok", "PYG"), ("Goa", "GOX"), ("Havelock", "IXZ"),
   ("Himachal", "KUU"), ("Kashmir", "SXR"), ("Kasol", "KUU"), ("Kaziranga", "JRH"),
   ("Kochi", "COK"), ("Wayanad", "CCJ"), ("Kerala", "COK"), ("Bangkok", "BKK"),
   ("Singapore", "SIN")]

/-- utils.city_to_iata: `CITY_TO_IATA.get(city_name.strip().title(), "")`. -/
def city_to_iata (cityName : String) : String :=
  (CITY_TO_IATA.lookup (pyTitle (pyStrip cityName))).getD ""

/-- Model of `re.search(r'in ([A-Za-z ]+)', s)`: the first position at which
the literal `in ` is followed by at least one letter-or-space character; the
captured group is the maximal such run. -/
def reSearchInCity : List Char → Option (List Char)
  | [] => Option.none
  | c :: cs =>
    match c :: cs with
    | 'i' :: 'n' :: ' ' :: rest =>
      let run := rest.takeWhile (fun d => d.isAlpha || d == ' ')
      if run.isEmpty then reSearchInCity cs else some run
    | _ => reSearchInCity cs

/-- utils.extract_city_from_package_name: substring-match a known city in the
package name, then in the comma-joined `destinationName` field, then fall back
to the `in <words>` regex.  Raises when a `.lower()` receiver is not a
string. -/
def extract_city_from_package_name (packageName : PyVal) (package : PyVal) :
    Except PyErr String := do
  let pn ← asStrE packageName
  match CITY_TO_IATA.findSome?
      (fun ct => if strContains (pyLower pn) (pyLower ct.1) then some ct.1 else Option.none) with
  | some city => pure city
  | Option.none =>
    let dnv ← pyGetDE package "destinationName" (PyVal.str "")
    let dn ← asStrE dnv
    match CITY_TO_IATA.findSome?
        (fun ct => if strContains (pyLower dn) (pyLower ct.1) then some ct.1 else Option.none) with
    | some city => pure city
    | Option.none =>
      match reSearchInCity pn.data with
      | some run => pure (pyStrip (String.mk run))
      | Option.none => pure ""

/-! ### business_logic.py : pure helpers -/

/-- One step of the list scan in `extract_destination_id_from_package`: the id
contributed by a single destination entry (a dict with a long-enough
`destinationId` string, or a long-enough plain string). -/
def destEntryId : PyVal → Option String
  | PyVal.dict kvs =>
    match pyDictGetD kvs "destinationId" PyVal.none with
    | PyVal.str s => if truthy (PyVal.str s) && decide (8 ≤ s.length) then some s else Option.none
    | _ => Option.none
  | PyVal.str s => if 8 ≤ s.length then some s else Option.none
  | _ => Option.none

/-- The `destination or to or city_code or cityCode` chain of book_travel and
extract_destination_id_from_package. -/
def destinationDataOf (package : PyVal) : PyVal :=
  pyOr (pyGet package "destination")
    (pyOr (pyGet package "to")
      (pyOr (pyGet package "city_code") (pyGet package "cityCode")))

/-- business_logic.extract_destination_id_from_package: first valid id from a
list of destination entries, the id of a single mapping, or a plain string,
under the ≥ 8 characters rule; `none` models Python `None`. -/
def extract_destination_id_from_package (package : PyVal) : Option String :=
  let destinationData := destinationDataOf package
  if !truthy destinationData then Option.none
  else
    match destinationData with
    | PyVal.list ds => ds.findSome? destEntryId
    | PyVal.dict kvs =>
      (match pyDictGetD kvs "destinationId" PyVal.none with
       | PyVal.str s =>
         if truthy (PyVal.str s) && decide (8 ≤ s.length) then some s else Option.none
       | _ => Option.none)
    | PyVal.str s => if 8 ≤ s.length then some s else Option.none
    | _ => Option.none

/-- business_logic.extract_hotels_from_package: the first of the fields
`hotel`, `hotels`, `hotelOptions`, `availableHotels` that is a nonempty
list. -/
def extract_hotels_from_package (package : PyVal) : List PyVal :=
  match pyGet package "hotel" with
  | PyVal.list (h :: hs) => h :: hs
  | _ =>
    match pyGet package "hotels" with
    | PyVal.list (h :: hs) => h :: hs
    | _ =>
      match pyGet package "hotelOptions" with
      | PyVal.list (h :: hs) => h :: hs
      | _ =>
        match pyGet package "availableHotels" with
        | PyVal.list (h :: hs) => h :: hs
        | _ => []

/-! ### hotel_mapper.py -/

/-- The meal-plan record `meal_info` built by
`HotelMapper.get_hotels_by_destination`. -/
structure MealInfo where
  mealPlan : PyVal
  roomPrice : PyVal
  adultPrice : PyVal
  childPrice : PyVal
  seasonType : PyVal
  startDate : PyVal
  endDate : PyVal

/-- The room record `room_info` built by
`HotelMapper.get_hotels_by_destination`. -/
structure RoomInfo where
  roomType : PyVal
  maxAdult : PyVal
  maxChild : PyVal
  maxInf : PyVal
  roomCapacity : PyVal
  isAc : PyVal
  mealPlans : List MealInfo

/-- The hotel record `hotel_info` built by
`HotelMapper.get_hotels_by_destination`. -/
structure HotelInfo where
  hotelName : PyVal
  hotelId : PyVal
  review : PyVal
  viewPoint : PyVal
  location : PyVal
  rooms : List RoomInfo

/-- One row of the `all_hotels.csv` catalog.  The two serialized columns are
modelled post-`ast.literal_eval`: `some v` when the cell parses to `v`, `none`
when `literal_eval` raises (the row is then skipped by every query). -/
structure CsvRow where
  hotelName : PyVal
  hotelId : PyVal
  review : PyVal
  viewPoint : PyVal
  location : Option PyVal
  hotelRoomDetails : Option PyVal

/-- Build `meal_info` from one entry of a room's `mealPlan` list; `none` when
the entry is not a dict (the `.get` calls then raise and the whole row is
skipped). -/
def parseMeal : PyVal → Option MealInfo
  | PyVal.dict kvs =>
    some ⟨pyDictGetD kvs "mealPlan" PyVal.none,
          pyDictGetD kvs "roomPrice" PyVal.none,
          pyDictGetD kvs "adultPrice" PyVal.none,
          pyDictGetD kvs "childPrice" PyVal.none,
          pyDictGetD kvs "seasonType" PyVal.none,
          pyDictGetD kvs "startDate" (PyVal.list []),
          pyDictGetD kvs "endDate" (PyVal.list [])⟩
  | _ => Option.none

/-- Build `room_info` from one entry of the parsed `hotelRoomDetails`;
`none` when an attribute access or iteration inside the row's `try` block
raises (the whole row is then skipped). -/
def parseRoom : PyVal → Option RoomInfo
  | PyVal.dict kvs =>
    match pyIterE (pyDictGetD kvs "mealPlan" (PyVal.list [])) with
    | Except.error _ => Option.none
    | Except.ok ms =>
      (ms.mapM parseMeal).map
        (fun meals =>
          ⟨pyDictGetD kvs "hotelRoomType" PyVal.none,
           pyDictGetD kvs "maxAdult" PyVal.none,
           pyDictGetD kvs "maxChild" PyVal.none,
           pyDictGetD kvs "maxInf" PyVal.none,
           pyDictGetD kvs "roomCapacity" PyVal.none,
           pyDictGetD kvs "isAc" PyVal.none,
           meals⟩)
  | _ => Option.none

/-- Process one catalog row for a destination query: `some hotel` when the row
parses, its location's `destinationId` equals the query id, and at least one
room keeps a nonempty meal-plan list; `none` when the row is skipped (parse
failure, destination mismatch, or no surviving rooms). -/
def rowHotel (destinationId : String) (row : CsvRow) : Option HotelInfo :=
  row.location.bind (fun loc =>
    match loc with
    | PyVal.dict _ =>
      if pyEqStr (pyGet loc "destinationId") destinationId then
        row.hotelRoomDetails.bind (fun rd =>
          (pyIterE rd).toOption.bind (fun rooms =>
            (rooms.mapM parseRoom).bind (fun roomInfos =>
              let surviving := roomInfos.filter (fun r => !r.mealPlans.isEmpty)
              if surviving.isEmpty then Option.none
              else some ⟨row.hotelName, row.hotelId, row.review, row.viewPoint,
                         loc, surviving⟩)))
      else Option.none
    | _ => Option.none)

/-- HotelMapper.get_hotels_by_destination over a loaded catalog (an empty
catalog models both an empty CSV and a failed CSV load). -/
def get_hotels_by_destination (catalog : List CsvRow) (destinationId : String) :
    List HotelInfo :=
  catalog.filterMap (rowHotel destinationId)

/-- Truthiness test on an optional filter argument (`if room_type and ...`):
`none` models Python `None`, and the empty string is falsy. -/
def filterGiven (filt : Option String) : Bool :=
  match filt with
  | some s => decide (s ≠ "")
  | Option.none => false

/-- The drop condition of the progressive filters: the filter is given
(truthy) and the record value does not equal it exactly. -/
def filterDrops (filt : Option String) (v : PyVal) : Bool :=
  filterGiven filt && !pyEqStr v (filt.getD "")

/-- HotelMapper.get_hotels_by_destination_and_package: progressive filtering
of the destination query by optional room type, package (meal plan) type and
season type. -/
def get_hotels_by_destination_and_package (catalog : List CsvRow)
    (destinationId : String)
    (packageType roomType seasonType : Option String) : List HotelInfo :=
  let hotels := get_hotels_by_destination catalog destinationId
  if hotels.isEmpty then []
  else
    hotels.filterMap (fun h =>
      let rooms := h.rooms.filterMap (fun r =>
        if filterDrops roomType r.roomType then Option.none
        else
          let meals := r.mealPlans.filter (fun m =>
            !filterDrops packageType m.mealPlan && !filterDrops seasonType m.seasonType)
          if meals.isEmpty then Option.none
          else some ⟨r.roomType, r.maxAdult, r.maxChild, r.maxInf,
                     r.roomCapacity, r.isAc, meals⟩)
      if rooms.isEmpty then Option.none
      else some ⟨h.hotelName, h.hotelId, h.review, h.viewPoint, h.location, rooms⟩)

/-- The `min`/`max`/`average` triple of the summary. -/
structure PriceRange where
  min : ℚ
  max : ℚ
  average : ℚ
  deriving DecidableEq

/-- The summary dict built by `get_hotel_summary_by_destination`.  The two
Python `set`s are modelled as first-occurrence-deduplicated lists (Python set
iteration order is unspecified). -/
structure Summary where
  destination_id : String
  total_hotels : ℕ
  price_range : PriceRange
  available_packages : List PyVal
  available_room_types : List PyVal
  hotels : List (PyVal × PyVal × PyVal)

/-- The price filter of the summary loop:
`meal['roomPrice'] and isinstance(meal['roomPrice'], (int, float))` — the
value must be truthy and an int/float (Python bools are ints, `True` counts
as 1). -/
def numericTruthyPrice : PyVal → Option ℚ
  | PyVal.num q => if q ≠ 0 then some q else Option.none
  | PyVal.bool b => if b then some 1 else Option.none
  | _ => Option.none

/-- The `all_prices` accumulation loop of the summary, in iteration order. -/
def collectPrices (hotels : List HotelInfo) : List ℚ :=
  hotels.foldl
    (fun acc h => h.rooms.foldl
      (fun acc r => r.mealPlans.foldl
        (fun acc m =>
          match numericTruthyPrice m.roomPrice with
          | some q => acc ++ [q]
          | Option.none => acc) acc) acc) []

/-- The `package_types` set accumulation of the summary. -/
def collectPackageTypes (hotels : List HotelInfo) : List PyVal :=
  hotels.foldl
    (fun acc h => h.rooms.foldl
      (fun acc r => r.mealPlans.foldl
        (fun acc m => addToSet acc m.mealPlan) acc) acc) []

/-- The `room_types` set accumulation of the summary. -/
def collectRoomTypes (hotels : List HotelInfo) : List PyVal :=
  hotels.foldl
    (fun acc h => h.rooms.foldl (fun acc r => addToSet acc r.roomType) acc) []

/-- Python `min(ps)` / `max(ps)` / `sum(ps)/len(ps)` guarded by `if all_prices else 0`. -/
def priceRangeOf (ps : List ℚ) : PriceRange :=
  match ps with
  | [] => ⟨0, 0, 0⟩
  | p :: tl =>
    ⟨tl.foldl min p, tl.foldl max p, (p :: tl).sum / ((p :: tl).length : ℚ)⟩

/-- The all-zero summary returned for a destination with no hotels. -/
def zeroSummary (destinationId : String) : Summary :=
  ⟨destinationId, 0, ⟨0, 0, 0⟩, [], [], []⟩

/-- HotelMapper.get_hotel_summary_by_destination. -/
def get_hotel_summary_by_destination (catalog : List CsvRow)
    (destinationId : String) : Summary :=
  let hotels := get_hotels_by_destination catalog destinationId
  if hotels.isEmpty then zeroSummary destinationId
  else
    ⟨destinationId, hotels.length, priceRangeOf (collectPrices hotels),
     collectPackageTypes hotels, collectRoomTypes hotels,
     hotels.map (fun h => (h.hotelName, h.hotelId, h.review))⟩

/-! ### business_logic.py : hotel table rendering -/

/-- The rupee sign prefixed to truthy prices. -/
def rupee : String := "₹"

/-- Price formatting in book_travel:
`f"₹{p}"` when the value is truthy, `"Price not available"` otherwise. -/
def formatPrice (v : PyVal) : String :=
  if truthy v then rupee ++ pyStr v else "Price not available"

/-- The `display_name` of a hotel table row: hotel name, room type in
parentheses, and a star-review suffix when the review is truthy. -/
def displayName (hotelName roomType review : PyVal) : String :=
  pyStr hotelName ++ " (" ++ pyStr roomType ++ ")" ++
    (if truthy review then " ⭐" ++ pyStr review else "")

/-- One rendered hotel table row
`| display_name | MEALPLAN | season | room | adult | child |`. -/
def displayRow (dn mealPlanUp : String) (seasonType : PyVal)
    (rp ap cp : String) : String :=
  "| " ++ dn ++ " | " ++ mealPlanUp ++ " | " ++ pyStr seasonType ++ " | " ++
    rp ++ " | " ++ ap ++ " | " ++ cp ++ " |"

/-- Render one meal-plan entry of a room into a table row; raises (into the
hotel branch handler) when the meal entry is not a dict or its `mealPlan`
value is not a string (`.upper()`). -/
def mealRowOf (hotelName review roomType meal : PyVal) : Except PyErr String := do
  let mealPlanV ← pyGetDE meal "mealPlan" (PyVal.str "")
  let roomPrice ← pyGetDE meal "roomPrice" (PyVal.str "")
  let adultPrice ← pyGetDE meal "adultPrice" (PyVal.str "")
  let childPrice ← pyGetDE meal "childPrice" (PyVal.str "")
  let seasonType ← pyGetDE meal "seasonType" (PyVal.str "")
  let mealPlanStr ← asStrE mealPlanV
  pure (displayRow (displayName hotelName roomType review) (pyUpper mealPlanStr)
        seasonType (formatPrice roomPrice) (formatPrice adultPrice)
        (formatPrice childPrice))

/-- Render the rows of one room of a hotel. -/
def roomRowsOf (hotelName review room : PyVal) : Except PyErr (List String) := do
  let roomType ← pyGetDE room "roomType" (PyVal.str "")
  let mealsV ← pyGetDE room "mealPlans" (PyVal.list [])
  let meals ← pyIterE mealsV
  meals.mapM (mealRowOf hotelName review roomType)

/-- Render the rows of one hotel record of the display loop. -/
def hotelRowsOf (hotel : PyVal) : Except PyErr (List String) := do
  let hotelName ← pyGetDE hotel "hotelName" (PyVal.str "")
  let review ← pyGetDE hotel "review" (PyVal.str "")
  let _viewPoint ← pyGetDE hotel "viewPoint" (PyVal.str "")
  let roomsV ← pyGetDE hotel "rooms" (PyVal.list [])
  let rooms ← pyIterE roomsV
  let rowss ← rooms.mapM (roomRowsOf hotelName review)
  pure rowss.flatten

/-- Render all display rows of the hotel list, in source order. -/
def hotelRows (hotels : List PyVal) : Except PyErr (List String) := do
  let rowss ← hotels.mapM hotelRowsOf
  pure rowss.flatten

/-- The numeric value `extract_price` reads from the stripped room-price
cell: strip, require a rupee sign, remove rupee signs and commas, parse as a
float; `⊤` on failure. -/
def parsePriceCell (cell : List Char) : WithTop ℚ :=
  if (pyStripChars cell).contains '₹' then
    match pyFloat? (String.mk
      (((pyStripChars cell).filter (fun c => c ≠ '₹')).filter (fun c => c ≠ ','))) with
    | some q => (q : WithTop ℚ)
    | Option.none => ⊤
  else ⊤

/-- book_travel's `extract_price` sort key: the numeric value of the fifth
`|`-separated cell when it carries a rupee sign and parses as a float, `⊤`
(Python `float("inf")`) otherwise (including on any exception, in particular
when the row has fewer than five cells). -/
def extract_price (row : String) : WithTop ℚ :=
  match (splitOnChar '|' row.data).get? 4 with
  | Option.none => ⊤
  | some cell => parsePriceCell cell

/-- The sort applied to the rendered rows: Python's stable
`rows.sort(key=extract_price)`, modelled by the stable insertion sort for the
total preorder induced by `extract_price`. -/
def sortRowsByPrice (rows : List String) : List String :=
  List.insertionSort (fun a b => extract_price a ≤ extract_price b) rows

/-- The header of the rendered hotel table. -/
def hotelTableHeader : String :=
  "| Hotel Name (Room Type) | Meal Plan | Season | Room Price | Adult Price | Child Price |\n|----------------------|-----------|--------|------------|------------|------------|\n"

/-! ### Conversion of mapper records to the dicts consumed by the display
loop (the mapper builds exactly these dicts in the source; the Lean embedding
keeps them structured until this point). -/

/-- The meal-plan dict built by the mapper. -/
def mealInfoToPy (m : MealInfo) : PyVal :=
  PyVal.dict [("mealPlan", m.mealPlan), ("roomPrice", m.roomPrice),
              ("adultPrice", m.adultPrice), ("childPrice", m.childPrice),
              ("seasonType", m.seasonType), ("startDate", m.startDate),
              ("endDate", m.endDate)]

/-- The room dict built by the mapper. -/
def roomInfoToPy (r : RoomInfo) : PyVal :=
  PyVal.dict [("roomType", r.roomType), ("maxAdult", r.maxAdult),
              ("maxChild", r.maxChild), ("maxInf", r.maxInf),
              ("roomCapacity", r.roomCapacity), ("isAc", r.isAc),
              ("mealPlans", PyVal.list (r.mealPlans.map mealInfoToPy))]

/-- The hotel dict built by the mapper. -/
def hotelInfoToPy (h : HotelInfo) : PyVal :=
  PyVal.dict [("hotelName", h.hotelName), ("hotelId", h.hotelId),
              ("review", h.review), ("viewPoint", h.viewPoint),
              ("location", h.location),
              ("rooms", PyVal.list (h.rooms.map roomInfoToPy))]

/-! ### tripxplo_api.py -/

/-- Scan a hotel's `destination` list for the query id, as
`fetch_hotels_by_destination` does: stop at the first matching dict, raise
(`none`) at the first non-dict element reached. -/
def scanDest (destinationId : String) : List PyVal → Option Bool
  | [] => some false
  | d :: ds =>
    match d with
    | PyVal.dict _ =>
      if pyEqStr (pyGet d "destinationId") destinationId then some true
      else scanDest destinationId ds
    | _ => Option.none

/-- Per-hotel step of `fetch_hotels_by_destination`: outer `none` models an
exception (which makes the whole function return `[]`), the inner option is
the matched record (name/price projection) or a non-match. -/
def matchHotel (destinationId : String) (hotel : PyVal) :
    Option (Option PyVal) :=
  match hotel with
  | PyVal.dict kvs =>
    let hotelDestination := pyDictGetD kvs "destination" PyVal.none
    let hotelName := pyOr (pyDictGetD kvs "name" PyVal.none)
      (pyOr (pyDictGetD kvs "hotelName" PyVal.none) (PyVal.str ""))
    let hotelPrice := pyOr (pyDictGetD kvs "price" PyVal.none)
      (pyOr (pyDictGetD kvs "minPrice" PyVal.none)
        (pyOr (pyDictGetD kvs "amount" PyVal.none) (PyVal.str "")))
    let isMatch? : Option Bool :=
      match hotelDestination with
      | PyVal.list (d :: ds) => scanDest destinationId (d :: ds)
      | PyVal.dict _ =>
        some (pyEqStr (pyGet hotelDestination "destinationId") destinationId)
      | PyVal.str s => some (decide (s = destinationId))
      | _ => some false
    match isMatch? with
    | Option.none => Option.none
    | some isMatch =>
      if isMatch && truthy hotelName && truthy hotelPrice then
        some (some (PyVal.dict
          [("name", hotelName), ("price", hotelPrice),
           ("adultPrice", pyDictGetD kvs "adultPrice" (PyVal.str "")),
           ("childPrice", pyDictGetD kvs "childPrice" (PyVal.str "")),
           ("mealPlan", pyDictGetD kvs "mealPlan" (PyVal.str "")),
           ("noOfNight", pyDictGetD kvs "noOfNight" (PyVal.str "")),
           ("hotelId", pyDictGetD kvs "hotelId" (PyVal.str "")),
           ("_id", pyDictGetD kvs "_id" (PyVal.str "")),
           ("destination", hotelDestination)]))
      else some Option.none
  | _ => Option.none

/-- tripxplo_api.fetch_hotels_by_destination: reject short destination ids,
scan the bulk hotel list, keep matching records that have a truthy name and a
truthy top-level price; any exception yields `[]`. -/
def fetch_hotels_by_destination (allHotels : List PyVal)
    (destinationId : String) : List PyVal :=
  if destinationId.length < 8 then []
  else
    match allHotels.mapM (matchHotel destinationId) with
    | Option.none => []
    | some results => results.reduceOption

/-- Look a package up by `str(p.get("_id")) == str(package_id)` in the
fetched package list; a non-dict entry reached during the scan raises, which
`tripxplo_get_package_by_id` catches, returning `None`. -/
def findPackage : List PyVal → String → Option (List (String × PyVal))
  | [], _ => Option.none
  | p :: ps, pid =>
    match p with
    | PyVal.dict kvs =>
      if pyStr (pyGet p "_id") = pid then some kvs else findPackage ps pid
    | _ => Option.none

/-! ### The environment of collaborator results consumed by book_travel -/

/-- Results of the network collaborators for one `book_travel` call:
whether the (first) token login succeeds, the fetched package list, the
destination-details lookup, the text produced by the fully try/except-wrapped
flight branch, the loaded CSV catalog, and the per-package hotel fallback
(`tripxplo_get_hotels`, `[]` on any of its caught failures). -/
structure Env where
  tokenOk : Bool
  packages : List PyVal
  destDetails : String → PyVal
  flight : String
  catalog : List CsvRow
  packageHotels : String → List PyVal

/-- tripxplo_api.tripxplo_get_package_by_id: raises when the token login
fails (the login call sits outside the function's `try` block); otherwise
scans the package list. -/
def tripxplo_get_package_by_id (env : Env) (packageId : String) :
    Except PyErr (Option (List (String × PyVal))) :=
  if env.tokenOk then Except.ok (findPackage env.packages packageId)
  else Except.error tokenErr

/-- tripxplo_api.tripxplo_get_destination_by_id, called only after a
successful package fetch (token already cached): `{}` for missing/short/
non-string ids, the provider record otherwise. -/
def tripxplo_get_destination_by_id (env : Env) (destinationId : PyVal) : PyVal :=
  match destinationId with
  | PyVal.str s => if s.length < 8 then PyVal.dict [] else env.destDetails s
  | _ => PyVal.dict []

/-! ### business_logic.py : book_travel -/

/-- The early-return message when the package id resolves to no package. -/
def packageNotFoundMsg (plan : String) : String :=
  "Package with ID " ++ sq ++ plan ++ sq ++ " not found."

/-- The early-return message when no destination code could be resolved. -/
def destNotFoundMsg (planActualName destinationData : PyVal) : String :=
  "Destination code not found or invalid in package. Package: " ++
    pyStr planActualName ++ ". Raw destination data: " ++ pyStr destinationData

/-- The `packageName or name or plan` chain of book_travel. -/
def planNameOf (kvs : List (String × PyVal)) (plan : String) : PyVal :=
  pyOr (pyDictGetD kvs "packageName" PyVal.none)
    (pyOr (pyDictGetD kvs "name" PyVal.none) (PyVal.str plan))

/-- Destination-code resolution for a list-shaped destination field (lines
30–38 of business_logic.py): look the first entry's `destinationId` up with
the provider, fall back to city extraction from the package name, and map the
city to an IATA code.  Attribute access on a non-dict first entry, on a
non-dict provider record, or string methods on non-string city names raise
out of book_travel (there is no enclosing `try`). -/
def resolveDestList (env : Env) (planActualName package d0 : PyVal) :
    Except PyErr (Option String) := do
  let destinationId ← pyGetE d0 "destinationId"
  let cityName0 ←
    if truthy destinationId then do
      let destDetails := tripxplo_get_destination_by_id env destinationId
      let n ← pyGetE destDetails "name"
      let c ← pyGetE destDetails "city"
      pure (pyOr n (pyOr c (PyVal.str "")))
    else pure (PyVal.str "")
  let cityName ←
    if truthy cityName0 then pure cityName0
    else do
      let city ← extract_city_from_package_name planActualName package
      pure (PyVal.str city)
  let cityStr ← asStrE cityName
  let dest := city_to_iata cityStr
  pure (if dest = "" then Option.none else some dest)

/-- Destination-code resolution of book_travel: a nonempty list is resolved
through the provider/city chain, a plain string is accepted exactly when its
length is 3, and every other shape resolves to no code. -/
def resolveDest (env : Env) (planActualName package destinationData : PyVal) :
    Except PyErr (Option String) :=
  match destinationData with
  | PyVal.list (d0 :: _) => resolveDestList env planActualName package d0
  | PyVal.str s => Except.ok (if s.length = 3 then some s else Option.none)
  | _ => Except.ok Option.none

/-- The body of book_travel's hotel `try` block: destination-id extraction,
catalog query (converted to the display dicts the mapper builds), fallback to
package-embedded hotels and then to the per-package provider fetch, row
rendering, price sort, and final table text. -/
def hotelBranch (env : Env) (package : PyVal) (plan : String) :
    Except PyErr String := do
  let destinationId := extract_destination_id_from_package package
  let destinationHotels : List PyVal :=
    match destinationId with
    | some did => (get_hotels_by_destination env.catalog did).map hotelInfoToPy
    | Option.none => []
  let hotels :=
    if destinationHotels.isEmpty then
      let packaged := extract_hotels_from_package package
      if packaged.isEmpty then env.packageHotels plan else packaged
    else destinationHotels
  let rows ← hotelRows hotels
  let sorted := sortRowsByPrice rows
  if sorted.isEmpty then pure "No hotels found for this destination."
  else pure (hotelTableHeader ++ String.intercalate "\n" sorted)

/-- The hotel section of the report: the branch's `try/except` converts any
raised error into a `Hotel search error:` line. -/
def hotelSection (env : Env) (package : PyVal) (plan : String) : String :=
  match hotelBranch env package plan with
  | Except.ok s => s
  | Except.error e => "Hotel search error: " ++ e.msg

/-- The final report text composed by book_travel (lines 183–193), with the
trailing `.strip()`. -/
def composeReport (planActualName : PyVal) (dest : String)
    (flightInfo hotelInfo : String) : String :=
  pyStrip ("Package: " ++ pyStr planActualName ++ "\nStatus: ✅ Complete\n\n✈️ Flight Details (Chennai to "
    ++ dest ++ ")\n" ++ flightInfo ++ "\n\n🏨 Hotel Details\n" ++ hotelInfo ++ "\n")

/-- business_logic.book_travel.  The departure/return dates (lines 13–22)
only parameterize the flight request, whose resulting text is `env.flight`;
their parsing failures are caught in the source.  The result is `Except.ok`
of the returned string, or `Except.error` when an uncaught exception escapes
book_travel. -/
def book_travel (env : Env) (plan customer date : String) :
    Except PyErr String := do
  match ← tripxplo_get_package_by_id env plan with
  | Option.none => pure (packageNotFoundMsg plan)
  | some kvs =>
    let package := PyVal.dict kvs
    let planActualName := planNameOf kvs plan
    let destinationData := destinationDataOf package
    match ← resolveDest env planActualName package destinationData with
    | Option.none => pure (destNotFoundMsg planActualName destinationData)
    | some dest =>
      pure (composeReport planActualName dest env.flight
        (hotelSection env package plan))

/-! ### Spec-side definitions (for refinement claims)

These follow the wording of the specification, to be compared with the
definitions above, which are translated from the source. -/

/-- Spec wording for the filtered query: a record survives a filter when the
filter is not given or matches exactly.  A provided empty string is the
not-given case (the `Optional[str]` / truthiness convention of the source's
callers). -/
def specKeeps (filt : Option String) (v : PyVal) : Bool :=
  match filt with
  | Option.none => true
  | some s => if s = "" then true else pyEqStr v s

/-- Spec wording of `get_hotels_by_destination_and_package`: starting from
the destination query, drop rooms whose type fails a given room_type filter,
drop meal plans failing a given package_type or season_type filter, drop
rooms with no surviving meal plans, and drop hotels with no surviving
rooms. -/
def specFilterHotels (packageType roomType seasonType : Option String)
    (hotels : List HotelInfo) : List HotelInfo :=
  hotels.filterMap (fun h =>
    let rooms := h.rooms.filterMap (fun r =>
      if !specKeeps roomType r.roomType then Option.none
      else
        let meals := r.mealPlans.filter (fun m =>
          specKeeps packageType m.mealPlan && specKeeps seasonType m.seasonType)
        if meals.isEmpty then Option.none
        else some ⟨r.roomType, r.maxAdult, r.maxChild, r.maxInf,
                   r.roomCapacity, r.isAc, meals⟩)
    if rooms.isEmpty then Option.none
    else some ⟨h.hotelName, h.hotelId, h.review, h.viewPoint, h.location, rooms⟩)

/-- Spec wording of the summary's aggregated prices: the room prices of all
meal plans, restricted to numeric truthy values, in iteration order. -/
def numericRoomPrices (hotels : List HotelInfo) : List ℚ :=
  (hotels.map (fun h =>
    (h.rooms.map (fun r =>
      r.mealPlans.filterMap (fun m => numericTruthyPrice m.roomPrice))).flatten)).flatten

/-! ### Concrete data used by witnesses and counterexamples -/

/-- A display row of the worked sorting example, parameterized by the rendered
room-price cell. -/
def exRow (rp : String) : String :=
  "| Hotel A (Deluxe) | CP | peak | " ++ rp ++ " | ₹100 | ₹50 |"

/-- A meal-plan dict with an explicit room price. -/
def exMeal (p : PyVal) : PyVal :=
  PyVal.dict [("mealPlan", PyVal.str "cp"), ("roomPrice", p),
              ("adultPrice", PyVal.num 100), ("childPrice", PyVal.num 50),
              ("seasonType", PyVal.str "peak")]

/-- A meal-plan dict with no room price field. -/
def exMealNoPrice : PyVal :=
  PyVal.dict [("mealPlan", PyVal.str "cp"),
              ("adultPrice", PyVal.num 100), ("childPrice", PyVal.num 50),
              ("seasonType", PyVal.str "peak")]

/-- A hotel whose meal plans carry prices 8000, missing and 3000, in that
order. -/
def exHotelThreeRows : PyVal :=
  PyVal.dict [("hotelName", PyVal.str "Hotel A"),
              ("rooms", PyVal.list [PyVal.dict
                [("roomType", PyVal.str "Deluxe"),
                 ("mealPlans", PyVal.list
                   [exMeal (PyVal.num 8000), exMealNoPrice, exMeal (PyVal.num 3000)])]])]

/-- The rooms field shared by the nested-price example records. -/
def c4Rooms : PyVal :=
  PyVal.list [PyVal.dict
    [("roomType", PyVal.str "Suite"),
     ("mealPlans", PyVal.list
       [PyVal.dict [("mealPlan", PyVal.str "map"),
                    ("roomPrice", PyVal.num 5000)]])]]

/-- Fields of a hotel record with a nested room-detail price 5000 and a
top-level price field 3000. -/
def c4NestedKvs : List (String × PyVal) :=
  [("hotelName", PyVal.str "Hotel B"), ("price", PyVal.num 3000),
   ("rooms", c4Rooms)]

/-- The same record without the top-level price field. -/
def c4NestedKvsNoPrice : List (String × PyVal) :=
  [("hotelName", PyVal.str "Hotel B"), ("rooms", c4Rooms)]

/-- A hotel record with a nested room-detail price 5000 and a top-level price
field 3000. -/
def c4HotelNested : PyVal := PyVal.dict c4NestedKvs

/-- A hotel record with no nested meal-plan price, a top-level price field
3000, and a hotel id matched by a bulk-fetch record. -/
def c4HotelNoNested : PyVal :=
  PyVal.dict [("hotelName", PyVal.str "Hotel B"),
              ("hotelId", PyVal.str "hotelid-0001"),
              ("price", PyVal.num 3000),
              ("rooms", PyVal.list [PyVal.dict
                [("roomType", PyVal.str "Suite"),
                 ("mealPlans", PyVal.list
                   [PyVal.dict [("mealPlan", PyVal.str "map")]])]])]

/-- A bulk hotel list holding a companion record for `c4HotelNoNested`,
matched by hotel identifier and by exact name, carrying price 3000. -/
def c4Bulk : List PyVal :=
  [PyVal.dict [("name", PyVal.str "Hotel B"), ("price", PyVal.num 3000),
               ("hotelId", PyVal.str "hotelid-0001"),
               ("destination", PyVal.str "dest-aaaaaaaa")]]

/-- The record `fetch_hotels_by_destination` builds from `c4Bulk` for its
destination: the top-level price 3000 is present and keyed by the matching
hotel id. -/
def c4BulkMatched : PyVal :=
  PyVal.dict [("name", PyVal.str "Hotel B"), ("price", PyVal.num 3000),
              ("adultPrice", PyVal.str ""), ("childPrice", PyVal.str ""),
              ("mealPlan", PyVal.str ""), ("noOfNight", PyVal.str ""),
              ("hotelId", PyVal.str "hotelid-0001"), ("_id", PyVal.str ""),
              ("destination", PyVal.str "dest-aaaaaaaa")]

/-- The row rendered for `c4HotelNested`. -/
def c4RowNested : String :=
  "| Hotel B (Suite) | MAP |  | ₹5000 | Price not available | Price not available |"

/-- The row rendered for `c4HotelNoNested`. -/
def c4RowNoNested : String :=
  "| Hotel B (Suite) | MAP |  | Price not available | Price not available | Price not available |"

/-- A catalog row whose single room offers meals priced 0 and 4000. -/
def c7Row : CsvRow :=
  ⟨PyVal.str "ZeroPriced", PyVal.str "hid0", PyVal.num 3, PyVal.str "",
   some (PyVal.dict [("destinationId", PyVal.str "dest-zero0001")]),
   some (PyVal.list [PyVal.dict
     [("hotelRoomType", PyVal.str "Std"),
      ("mealPlan", PyVal.list
        [PyVal.dict [("mealPlan", PyVal.str "cp"), ("roomPrice", PyVal.num 0)],
         PyVal.dict [("mealPlan", PyVal.str "cp"), ("roomPrice", PyVal.num 4000)]])]])⟩

/-- A catalog row for the destination-query witness. -/
def c3Row : CsvRow :=
  ⟨PyVal.str "Grand", PyVal.str "hid12345", PyVal.num 4, PyVal.str "Lake",
   some (PyVal.dict [("destinationId", PyVal.str "dest-0001abcd")]),
   some (PyVal.list [PyVal.dict
     [("hotelRoomType", PyVal.str "Deluxe"),
      ("mealPlan", PyVal.list
        [PyVal.dict [("mealPlan", PyVal.str "cp"), ("roomPrice", PyVal.num 4000)]])]])⟩

/-- A catalog row both of whose serialized cells fail to parse. -/
def c3BadRow : CsvRow :=
  ⟨PyVal.str "Broken", PyVal.str "hid99999", PyVal.num 1, PyVal.str "",
   Option.none, Option.none⟩

/-- The hotel produced by `c3Row` for its destination. -/
def c3Hotel : HotelInfo :=
  ⟨PyVal.str "Grand", PyVal.str "hid12345", PyVal.num 4, PyVal.str "Lake",
   PyVal.dict [("destinationId", PyVal.str "dest-0001abcd")],
   [⟨PyVal.str "Deluxe", PyVal.none, PyVal.none, PyVal.none, PyVal.none, PyVal.none,
     [⟨PyVal.str "cp", PyVal.num 4000, PyVal.none, PyVal.none, PyVal.none,
       PyVal.list [], PyVal.list []⟩]⟩]⟩

/-- An environment whose package list is empty (every id is then
unresolvable). -/
def c1EnvEmpty : Env :=
  ⟨true, [], fun _ => PyVal.dict [], "", [], fun _ => []⟩

/-- An environment holding a package whose destination field is a list whose
first entry is a plain string: the shape on which book_travel's flight-side
destination code (line 31, `dest_obj.get`) raises `AttributeError`. -/
def c1BadEnv : Env :=
  ⟨true,
   [PyVal.dict [("_id", PyVal.str "p1"),
                ("destination", PyVal.list [PyVal.str "abcdefgh123"])]],
   fun _ => PyVal.dict [], "", [], fun _ => []⟩

/-- The package of the 3-letter string-destination witness. -/
def c9Kvs : List (String × PyVal) :=
  [("_id", PyVal.str "pk1"), ("name", PyVal.str "Goa Trip"),
   ("destination", PyVal.str "GOX")]

/-- Environment holding `c9Kvs`. -/
def c9Env : Env :=
  ⟨true, [PyVal.dict c9Kvs], fun _ => PyVal.dict [], "FLIGHTTABLE", [],
   fun _ => []⟩

/-- The package of the 8-character string-destination witness (a valid hotel
destination id, but not a 3-letter code). -/
def c9KvsB : List (String × PyVal) :=
  [("_id", PyVal.str "pk2"), ("name", PyVal.str "Trip"),
   ("destination", PyVal.str "abcdefgh")]

/-- Environment holding `c9KvsB`. -/
def c9EnvB : Env :=
  ⟨true, [PyVal.dict c9KvsB], fun _ => PyVal.dict [], "", [], fun _ => []⟩

/-! ## Helper lemmas -/

theorem pyGetDE_dict (kvs : List (String × PyVal)) (k : String) (d : PyVal) :
    pyGetDE (PyVal.dict kvs) k d = Except.ok (pyDictGetD kvs k d) := rfl

theorem exceptOk_bind {ε α β : Type} (a : α) (f : α → Except ε β) :
    ((Except.ok a : Except ε α) >>= f) = f a := rfl

theorem exceptErr_bind {ε α β : Type} (e : ε) (f : α → Except ε β) :
    ((Except.error e : Except ε α) >>= f) = Except.error e := rfl

theorem exceptPure {ε α : Type} (a : α) :
    (pure a : Except ε α) = Except.ok a := rfl

theorem pyEqStr_eq_true {v : PyVal} {s : String} (h : pyEqStr v s = true) :
    v = PyVal.str s := by
  cases v <;> simp [pyEqStr] at h
  exact congrArg PyVal.str h

theorem str_ne_empty_of_length {s : String} {n : ℕ} (hn : 0 < n)
    (h : n ≤ s.length) : s ≠ "" := by
  intro hs
  subst hs
  simp [String.length] at h
  omega

/-! ## C8 : city_to_iata -/

/-- C8: `city_to_iata` is insensitive to letter case and surrounding
whitespace: it looks its input up after trimming and title-casing, so
`" munnar "`, `"MUNNAR"` and `"Munnar"` all map to `"COK"`; any two inputs
with the same trimmed title-cased form agree; and a city absent from the
static table yields the empty string rather than an error. -/
theorem city_to_iata_case_whitespace_insensitive :
    (city_to_iata " munnar " = "COK" ∧ city_to_iata "MUNNAR" = "COK" ∧
      city_to_iata "Munnar" = "COK") ∧
    (∀ s t : String, pyTitle (pyStrip s) = pyTitle (pyStrip t) →
      city_to_iata s = city_to_iata t) ∧
    (∀ s : String, CITY_TO_IATA.lookup (pyTitle (pyStrip s)) = Option.none →
      city_to_iata s = "") := by
  refine ⟨⟨by decide, by decide, by decide⟩, ?_, ?_⟩
  · intro s t h
    unfold city_to_iata
    rw [h]
  · intro s h
    unfold city_to_iata
    rw [h]
    rfl

/-- C8 witness: the general parts applied at concrete inputs. -/
theorem city_to_iata_case_whitespace_insensitive_witness :
    city_to_iata " munnar " = city_to_iata "MUNNAR" ∧
    city_to_iata "Atlantis" = "" :=
  ⟨city_to_iata_case_whitespace_insensitive.2.1 " munnar " "MUNNAR" (by decide),
   city_to_iata_case_whitespace_insensitive.2.2 "Atlantis" (by decide)⟩

/-! ## C10 : truthiness of rendered prices -/

/-- C10: book_travel renders a price field with the rupee prefix exactly when
the value is truthy; a `0` or empty-string price renders the
`Price not available` placeholder, and a meal plan carrying such a price
renders exactly the row rendered when the price field is absent. -/
theorem price_rendering_truthy_only :
    (∀ v, truthy v = false → formatPrice v = "Price not available") ∧
    (∀ v, truthy v = true → formatPrice v = rupee ++ pyStr v) ∧
    formatPrice (PyVal.num 0) = "Price not available" ∧
    formatPrice (PyVal.str "") = "Price not available" ∧
    (∀ hotelName review roomType kvs,
      kvs.lookup "roomPrice" = Option.none →
      mealRowOf hotelName review roomType
          (PyVal.dict (("roomPrice", PyVal.num 0) :: kvs)) =
        mealRowOf hotelName review roomType (PyVal.dict kvs) ∧
      mealRowOf hotelName review roomType
          (PyVal.dict (("roomPrice", PyVal.str "") :: kvs)) =
        mealRowOf hotelName review roomType (PyVal.dict kvs)) := by
  refine ⟨?_, ?_, rfl, rfl, ?_⟩
  · intro v h
    simp [formatPrice, h]
  · intro v h
    simp [formatPrice, h]
  · intro hotelName review roomType kvs h
    constructor <;>
      simp [mealRowOf, pyGetDE, pyDictGetD, List.lookup_cons, h, formatPrice,
            truthy, exceptOk_bind]

/-- C10 witness: the zero-price and empty-string-price rows at a concrete
meal plan coincide with the absent-price row. -/
theorem price_rendering_truthy_only_witness :
    formatPrice (PyVal.num 0) = "Price not available" ∧
    mealRowOf (PyVal.str "H") (PyVal.str "") (PyVal.str "D")
        (PyVal.dict [("roomPrice", PyVal.num 0), ("mealPlan", PyVal.str "cp")]) =
      mealRowOf (PyVal.str "H") (PyVal.str "") (PyVal.str "D")
        (PyVal.dict [("mealPlan", PyVal.str "cp")]) :=
  ⟨price_rendering_truthy_only.2.2.1,
   (price_rendering_truthy_only.2.2.2.2 (PyVal.str "H") (PyVal.str "")
      (PyVal.str "D") [("mealPlan", PyVal.str "cp")] rfl).1⟩

/-! ## C2 : extract_destination_id_from_package -/

/-- C2: for a destination field shaped as a list of entries, a single
mapping, or a plain string, `extract_destination_id_from_package` returns the
underlying id exactly when it is a string of length ≥ 8 (in a list, the first
valid entry wins over any preceding invalid entries), and returns `None` when
the id is shorter than 8 characters. -/
theorem extract_destination_id_shape_uniform :
    ∀ (s : String) (pre post : List PyVal),
      (∀ v ∈ pre, destEntryId v = Option.none) →
      (8 ≤ s.length →
        extract_destination_id_from_package
            (PyVal.dict [("destination", PyVal.str s)]) = some s ∧
        extract_destination_id_from_package
            (PyVal.dict [("destination",
              PyVal.dict [("destinationId", PyVal.str s)])]) = some s ∧
        extract_destination_id_from_package
            (PyVal.dict [("destination", PyVal.list
              (pre ++ PyVal.dict [("destinationId", PyVal.str s)] :: post))]) = some s) ∧
      (s.length < 8 →
        extract_destination_id_from_package
            (PyVal.dict [("destination", PyVal.str s)]) = Option.none ∧
        extract_destination_id_from_package
            (PyVal.dict [("destination",
              PyVal.dict [("destinationId", PyVal.str s)])]) = Option.none ∧
        extract_destination_id_from_package
            (PyVal.dict [("destination", PyVal.list
              (pre ++ [PyVal.dict [("destinationId", PyVal.str s)]]))]) = Option.none) := by
  intro s pre post hpre
  have hpren : pre.findSome? destEntryId = Option.none :=
    List.findSome?_eq_none_iff.mpr hpre
  constructor
  · intro hlen
    have hne : s ≠ "" := str_ne_empty_of_length (by omega) hlen
    refine ⟨?_, ?_, ?_⟩
    · simp [extract_destination_id_from_package, destinationDataOf, pyGet,
            pyDictGetD, pyOr, truthy, hne, hlen]
    · simp [extract_destination_id_from_package, destinationDataOf, pyGet,
            pyDictGetD, pyOr, truthy, hne, hlen]
    · simp [extract_destination_id_from_package, destinationDataOf, pyGet,
            pyDictGetD, pyOr, truthy, List.findSome?_append, hpren,
            destEntryId, hne, hlen]
  · intro hlen
    have h8 : ¬ (8 ≤ s.length) := by omega
    refine ⟨?_, ?_, ?_⟩
    · by_cases hne : s = ""
      · subst hne
        rfl
      · simp [extract_destination_id_from_package, destinationDataOf, pyGet,
              pyDictGetD, pyOr, truthy, hne, h8]
    · simp [extract_destination_id_from_package, destinationDataOf, pyGet,
            pyDictGetD, pyOr, truthy, h8]
    · simp [extract_destination_id_from_package, destinationDataOf, pyGet,
            pyDictGetD, pyOr, truthy, List.findSome?_append, hpren,
            destEntryId, h8]

/-- C2 witness: the same id `"abcd1234"` is returned for all three shapes
(with an invalid short entry preceding it in the list shape), and the
7-character id `"abcd123"` yields `None` for all three shapes. -/
theorem extract_destination_id_shape_uniform_witness :
    (extract_destination_id_from_package
        (PyVal.dict [("destination", PyVal.str "abcd1234")]) = some "abcd1234" ∧
     extract_destination_id_from_package
        (PyVal.dict [("destination",
          PyVal.dict [("destinationId", PyVal.str "abcd1234")])]) = some "abcd1234" ∧
     extract_destination_id_from_package
        (PyVal.dict [("destination", PyVal.list
          ([PyVal.str "x"] ++ PyVal.dict [("destinationId", PyVal.str "abcd1234")] :: []))]) =
        some "abcd1234") ∧
    (extract_destination_id_from_package
        (PyVal.dict [("destination", PyVal.str "abcd123")]) = Option.none ∧
     extract_destination_id_from_package
        (PyVal.dict [("destination",
          PyVal.dict [("destinationId", PyVal.str "abcd123")])]) = Option.none ∧
     extract_destination_id_from_package
        (PyVal.dict [("destination", PyVal.list
          ([PyVal.str "x"] ++ [PyVal.dict [("destinationId", PyVal.str "abcd123")]]))]) =
        Option.none) :=
  ⟨(extract_destination_id_shape_uniform "abcd1234" [PyVal.str "x"] []
      (by intro v hv; simp at hv; subst hv; decide)).1 (by decide),
   (extract_destination_id_shape_uniform "abcd123" [PyVal.str "x"] []
      (by intro v hv; simp at hv; subst hv; decide)).2 (by decide)⟩

/-! ## C3 : get_hotels_by_destination invariants -/

theorem rowHotel_some_props {destinationId : String} {row : CsvRow}
    {h : HotelInfo} (he : rowHotel destinationId row = some h) :
    pyGet h.location "destinationId" = PyVal.str destinationId ∧
    h.rooms ≠ [] ∧ ∀ r ∈ h.rooms, r.mealPlans ≠ [] := by
  unfold rowHotel at he
  cases hl : row.location with
  | none => rw [hl] at he; exact absurd he (by simp)
  | some loc =>
    rw [hl] at he
    rw [Option.some_bind] at he
    cases loc with
    | none => exact absurd he (by simp)
    | bool b => exact absurd he (by simp)
    | num q => exact absurd he (by simp)
    | str s => exact absurd he (by simp)
    | list xs => exact absurd he (by simp)
    | dict kvs =>
      by_cases hc : pyEqStr (pyGet (PyVal.dict kvs) "destinationId") destinationId
      · rw [if_pos hc] at he
        cases hrd : row.hotelRoomDetails with
        | none => rw [hrd] at he; exact absurd he (by simp)
        | some rd =>
          rw [hrd, Option.some_bind] at he
          cases hit : pyIterE rd with
          | error e => rw [hit] at he; exact absurd he (by simp [Except.toOption])
          | ok rooms =>
            rw [hit] at he
            simp only [Except.toOption, Option.some_bind] at he
            cases hmm : rooms.mapM parseRoom with
            | none => rw [hmm] at he; exact absurd he (by simp)
            | some roomInfos =>
              rw [hmm, Option.some_bind] at he
              by_cases hs : (roomInfos.filter (fun r => !r.mealPlans.isEmpty)).isEmpty
              · simp only [hs, if_true] at he
                exact absurd he (by simp)
              · simp only [hs, if_false, Bool.false_eq_true] at he
                have hh := (Option.some_inj.mp he).symm
                subst hh
                refine ⟨pyEqStr_eq_true hc, ?_, ?_⟩
                · intro hnil
                  have hnil2 : (roomInfos.filter (fun r => !r.mealPlans.isEmpty)) = [] := hnil
                  rw [hnil2] at hs
                  exact hs rfl
                · intro r hr
                  have hr2 : r ∈ roomInfos.filter (fun r => !r.mealPlans.isEmpty) := hr
                  have := List.of_mem_filter hr2
                  simp only [Bool.not_eq_true'] at this
                  intro hnil
                  rw [hnil] at this
                  simp at this
      · rw [if_neg hc] at he
        exact absurd he (by simp)

theorem rowHotel_skip_of_parse_failure {destinationId : String} {row : CsvRow}
    (hskip : row.location = Option.none ∨ row.hotelRoomDetails = Option.none) :
    rowHotel destinationId row = Option.none := by
  rcases hskip with h1 | h2
  · simp [rowHotel, h1]
  · cases hl : row.location with
    | none => simp [rowHotel, hl]
    | some loc =>
      cases loc <;> simp [rowHotel, hl, h2]

theorem hotels_invariants (catalog : List CsvRow) (destinationId : String) :
    ∀ h ∈ get_hotels_by_destination catalog destinationId,
      pyGet h.location "destinationId" = PyVal.str destinationId ∧
      h.rooms ≠ [] ∧ ∀ r ∈ h.rooms, r.mealPlans ≠ [] := by
  intro h hm
  obtain ⟨row, _, he⟩ := List.mem_filterMap.mp hm
  exact rowHotel_some_props he

/-- C3: every hotel returned by a destination query has a parsed location
whose `destinationId` equals the query id exactly, at least one room, and at
least one meal plan in every room; a row whose serialized cells fail to parse
is skipped without affecting the rest of the query. -/
theorem hotels_match_destination_nonempty_rows :
    ∀ (catalog : List CsvRow) (destinationId : String),
      (∀ h ∈ get_hotels_by_destination catalog destinationId,
        pyGet h.location "destinationId" = PyVal.str destinationId ∧
        h.rooms ≠ [] ∧ ∀ r ∈ h.rooms, r.mealPlans ≠ []) ∧
      (∀ (row : CsvRow) (rest : List CsvRow),
        row.location = Option.none ∨ row.hotelRoomDetails = Option.none →
        get_hotels_by_destination (row :: rest) destinationId =
          get_hotels_by_destination rest destinationId) := by
  intro catalog destinationId
  constructor
  · exact hotels_invariants catalog destinationId
  · intro row rest hskip
    simp [get_hotels_by_destination, List.filterMap_cons,
          rowHotel_skip_of_parse_failure hskip]

/-- C3 witness: a concrete two-row catalog in which the unparseable row is
skipped and the returned hotel matches the query id with nonempty rooms and
meal plans. -/
theorem hotels_match_destination_nonempty_rows_witness :
    (pyGet c3Hotel.location "destinationId" = PyVal.str "dest-0001abcd" ∧
     c3Hotel.rooms ≠ [] ∧ ∀ r ∈ c3Hotel.rooms, r.mealPlans ≠ []) ∧
    get_hotels_by_destination (c3BadRow :: [c3Row]) "dest-0001abcd" =
      get_hotels_by_destination [c3Row] "dest-0001abcd" :=
  ⟨(hotels_match_destination_nonempty_rows [c3BadRow, c3Row] "dest-0001abcd").1
      c3Hotel (by show c3Hotel ∈ [c3Hotel]; exact List.mem_singleton.mpr rfl),
   (hotels_match_destination_nonempty_rows [c3BadRow, c3Row] "dest-0001abcd").2
      c3BadRow [c3Row] (Or.inl rfl)⟩

/-! ## C6 : get_hotels_by_destination_and_package -/

theorem filterDrops_eq_not_specKeeps (f : Option String) (v : PyVal) :
    filterDrops f v = !specKeeps f v := by
  cases f with
  | none => rfl
  | some s =>
    by_cases hs : s = ""
    · subst hs
      simp [filterDrops, filterGiven, specKeeps]
    · simp [filterDrops, filterGiven, specKeeps, hs]

theorem filterMap_id_of_forall {α : Type} (f : α → Option α) :
    ∀ l : List α, (∀ a ∈ l, f a = some a) → l.filterMap f = l
  | [], _ => rfl
  | a :: l, h => by
    rw [List.filterMap_cons, h a (List.mem_cons_self a l),
        filterMap_id_of_forall f l (fun b hb => h b (List.mem_cons_of_mem a hb))]

/-- C6: the filtered query equals the destination query post-processed by the
spec's progressive filter (rooms dropped on a failing given room_type filter,
meal plans dropped on a failing given package_type or season_type filter,
then empty rooms and empty hotels dropped; given filters combine by logical
AND), and omitting all filters returns the destination query unchanged. -/
theorem filtered_query_is_progressive_filter :
    ∀ (catalog : List CsvRow) (destinationId : String)
      (packageType roomType seasonType : Option String),
      get_hotels_by_destination_and_package catalog destinationId
          packageType roomType seasonType =
        specFilterHotels packageType roomType seasonType
          (get_hotels_by_destination catalog destinationId) ∧
      get_hotels_by_destination_and_package catalog destinationId
          Option.none Option.none Option.none =
        get_hotels_by_destination catalog destinationId := by
  intro catalog destinationId pt rt st
  have hchar : ∀ pt' rt' st' : Option String,
      get_hotels_by_destination_and_package catalog destinationId pt' rt' st' =
        specFilterHotels pt' rt' st'
          (get_hotels_by_destination catalog destinationId) := by
    intro pt' rt' st'
    unfold get_hotels_by_destination_and_package specFilterHotels
    by_cases hemp : (get_hotels_by_destination catalog destinationId).isEmpty
    · rw [if_pos hemp]
      rw [List.isEmpty_iff] at hemp
      rw [hemp, List.filterMap_nil]
    · rw [if_neg hemp]
      simp only [filterDrops_eq_not_specKeeps, Bool.not_not]
  refine ⟨hchar pt rt st, ?_⟩
  rw [hchar Option.none Option.none Option.none]
  unfold specFilterHotels
  apply filterMap_id_of_forall
  intro h hm
  have hprops :=
    (hotels_invariants catalog destinationId) h hm
  have hrooms :
      h.rooms.filterMap (fun r =>
        if !specKeeps Option.none r.roomType then Option.none
        else
          let meals := r.mealPlans.filter (fun m =>
            specKeeps Option.none m.mealPlan && specKeeps Option.none m.seasonType)
          if meals.isEmpty then Option.none
          else some ⟨r.roomType, r.maxAdult, r.maxChild, r.maxInf,
                     r.roomCapacity, r.isAc, meals⟩) = h.rooms := by
    apply filterMap_id_of_forall
    intro r hr
    have hmne : r.mealPlans ≠ [] := hprops.2.2 r hr
    have hie : r.mealPlans.isEmpty = false := by
      cases hml : r.mealPlans with
      | nil => exact absurd hml hmne
      | cons a l => rfl
    simp only [specKeeps, Bool.not_true, if_false, Bool.and_self,
               List.filter_true, hie, Bool.false_eq_true]
  simp only [hrooms]
  have hie : h.rooms.isEmpty = false := by
    cases hml : h.rooms with
    | nil => exact absurd hml hprops.2.1
    | cons a l => rfl
  simp only [hie, Bool.false_eq_true, if_false]

/-! ## C7 : get_hotel_summary_by_destination -/

theorem foldl_prices_meals (ms : List MealInfo) :
    ∀ acc : List ℚ,
      ms.foldl (fun acc m =>
        match numericTruthyPrice m.roomPrice with
        | some q => acc ++ [q]
        | Option.none => acc) acc =
      acc ++ ms.filterMap (fun m => numericTruthyPrice m.roomPrice) := by
  induction ms with
  | nil => intro acc; simp
  | cons m ms ih =>
    intro acc
    simp only [List.foldl_cons, List.filterMap_cons]
    cases hq : numericTruthyPrice m.roomPrice with
    | none => simp only [ih]
    | some q => simp only [ih, List.append_assoc, List.singleton_append]

theorem foldl_prices_rooms (rs : List RoomInfo) :
    ∀ acc : List ℚ,
      rs.foldl (fun acc r => r.mealPlans.foldl (fun acc m =>
        match numericTruthyPrice m.roomPrice with
        | some q => acc ++ [q]
        | Option.none => acc) acc) acc =
      acc ++ (rs.map (fun r =>
        r.mealPlans.filterMap (fun m => numericTruthyPrice m.roomPrice))).flatten := by
  induction rs with
  | nil => intro acc; simp
  | cons r rs ih =>
    intro acc
    simp only [List.foldl_cons, List.map_cons, List.flatten_cons]
    rw [foldl_prices_meals r.mealPlans acc,
        ih (acc ++ r.mealPlans.filterMap (fun m => numericTruthyPrice m.roomPrice)),
        List.append_assoc]

theorem foldl_prices_hotels (hs : List HotelInfo) :
    ∀ acc : List ℚ,
      hs.foldl (fun acc h => h.rooms.foldl (fun acc r =>
        r.mealPlans.foldl (fun acc m =>
          match numericTruthyPrice m.roomPrice with
          | some q => acc ++ [q]
          | Option.none => acc) acc) acc) acc =
      acc ++ (hs.map (fun h => (h.rooms.map (fun r =>
        r.mealPlans.filterMap (fun m => numericTruthyPrice m.roomPrice))).flatten)).flatten := by
  induction hs with
  | nil => intro acc; simp
  | cons h hs ih =>
    intro acc
    simp only [List.foldl_cons, List.map_cons, List.flatten_cons]
    rw [foldl_prices_rooms h.rooms acc,
        ih (acc ++ (h.rooms.map (fun r =>
          r.mealPlans.filterMap (fun m => numericTruthyPrice m.roomPrice))).flatten),
        List.append_assoc]

theorem collectPrices_eq_numericRoomPrices (hotels : List HotelInfo) :
    collectPrices hotels = numericRoomPrices hotels := by
  unfold collectPrices numericRoomPrices
  rw [foldl_prices_hotels hotels [], List.nil_append]

/-- C7 (amended): a destination matching no hotel in the catalog (the empty
string included) yields the all-zero summary rather than an error; otherwise
`total_hotels` counts the returned hotels and the price range aggregates
exactly the truthy numeric room prices — non-numeric, absent and zero prices
are all excluded from the min, the max, and both the numerator and the
denominator of the average, rather than treated as zero. -/
theorem summary_zero_on_empty_and_prices_numeric_truthy :
    ∀ (catalog : List CsvRow) (destinationId : String),
      (get_hotels_by_destination catalog destinationId = [] →
        get_hotel_summary_by_destination catalog destinationId =
          zeroSummary destinationId) ∧
      (get_hotel_summary_by_destination catalog destinationId).total_hotels =
        (get_hotels_by_destination catalog destinationId).length ∧
      (get_hotel_summary_by_destination catalog destinationId).price_range =
        priceRangeOf (numericRoomPrices
          (get_hotels_by_destination catalog destinationId)) := by
  intro catalog destinationId
  unfold get_hotel_summary_by_destination
  by_cases hemp : (get_hotels_by_destination catalog destinationId).isEmpty
  · rw [if_pos hemp]
    rw [List.isEmpty_iff] at hemp
    rw [hemp]
    exact ⟨fun _ => rfl, rfl, rfl⟩
  · rw [if_neg hemp]
    refine ⟨?_, rfl, ?_⟩
    · intro hnil
      rw [List.isEmpty_iff] at hemp
      exact absurd hnil hemp
    · simp only [collectPrices_eq_numericRoomPrices]

/-- C7 witness: the all-zero summary at an unmatched destination, and the
price-range characterization at a destination with hotels. -/
theorem summary_zero_on_empty_and_prices_numeric_truthy_witness :
    get_hotel_summary_by_destination [c7Row] "nosuchdest" =
      zeroSummary "nosuchdest" ∧
    (get_hotel_summary_by_destination [c7Row] "dest-zero0001").price_range =
      priceRangeOf (numericRoomPrices
        (get_hotels_by_destination [c7Row] "dest-zero0001")) :=
  ⟨(summary_zero_on_empty_and_prices_numeric_truthy [c7Row] "nosuchdest").1 rfl,
   (summary_zero_on_empty_and_prices_numeric_truthy [c7Row] "dest-zero0001").2.2⟩

/-- C7 counterexample: a catalog meal plan with the numeric room price `0` is
present, yet the summary excludes it: the price range over prices `{0, 4000}`
is `min = max = average = 4000`, where the claim's reading (all numeric
prices aggregated) would give `min = 0` and `average = 2000`. -/
theorem summary_excludes_zero_numeric_price :
    (get_hotels_by_destination [c7Row] "dest-zero0001").map
        (fun h => h.rooms.map (fun r => r.mealPlans.map (fun m => m.roomPrice))) =
      [[[PyVal.num 0, PyVal.num 4000]]] ∧
    (get_hotel_summary_by_destination [c7Row] "dest-zero0001").price_range =
      ⟨4000, 4000, 4000⟩ ∧
    (get_hotel_summary_by_destination [c7Row] "dest-zero0001").price_range.min ≠ 0 := by
  have h1 : (get_hotel_summary_by_destination [c7Row] "dest-zero0001").price_range =
      priceRangeOf [(4000 : ℚ)] := rfl
  have h2 : priceRangeOf [(4000 : ℚ)] = ⟨4000, 4000, 4000⟩ := by
    show PriceRange.mk (List.foldl min 4000 []) (List.foldl max 4000 [])
        ([(4000 : ℚ)].sum / (([(4000 : ℚ)].length : ℕ) : ℚ)) = ⟨4000, 4000, 4000⟩
    simp only [List.foldl_nil, List.sum_cons, List.sum_nil, List.length_cons,
               List.length_nil]
    norm_num
  refine ⟨rfl, h1.trans h2, ?_⟩
  rw [h1, h2]
  norm_num

/-! ## C4 : where rendered prices come from -/

/-- C4 (amended): in book_travel's hotel rendering, each of room, adult and
child price is taken independently and solely from the meal-plan entry of the
room-detail sub-structure: the rendered rows depend only on the record's
`hotelName`, `review` and `rooms` fields, so a top-level price field is never
consulted (nested 5000 with top-level 3000 renders `₹5000`), and no companion
bulk-hotel-fetch lookup takes place. -/
theorem meal_prices_come_only_from_meal_record :
    (∀ kvs1 kvs2 : List (String × PyVal),
      pyDictGetD kvs1 "hotelName" (PyVal.str "") =
        pyDictGetD kvs2 "hotelName" (PyVal.str "") →
      pyDictGetD kvs1 "review" (PyVal.str "") =
        pyDictGetD kvs2 "review" (PyVal.str "") →
      pyDictGetD kvs1 "rooms" (PyVal.list []) =
        pyDictGetD kvs2 "rooms" (PyVal.list []) →
      hotelRowsOf (PyVal.dict kvs1) = hotelRowsOf (PyVal.dict kvs2)) ∧
    hotelRows [c4HotelNested] = Except.ok [c4RowNested] ∧
    strContains c4RowNested "₹5000" = true ∧
    strContains c4RowNested "3000" = false := by
  refine ⟨?_, rfl, by decide, by decide⟩
  intro kvs1 kvs2 h1 h2 h3
  unfold hotelRowsOf
  simp only [pyGetDE_dict, exceptOk_bind, h1, h2, h3]

/-- C4 witness: removing the top-level price field from the nested-price
record leaves the rendered rows unchanged. -/
theorem meal_prices_come_only_from_meal_record_witness :
    hotelRowsOf (PyVal.dict c4NestedKvs) =
      hotelRowsOf (PyVal.dict c4NestedKvsNoPrice) :=
  meal_prices_come_only_from_meal_record.1 c4NestedKvs c4NestedKvsNoPrice
    rfl rfl rfl

/-- C4 counterexample: a record with neither a nested nor (consulted)
top-level price renders the placeholder even though its top-level price field
is 3000 and a companion bulk-fetch record, matched by the hotel identifier
and by exact name, carries price 3000: the claimed top-level and catalog
fallbacks do not happen. -/
theorem no_price_fallback_counterexample :
    hotelRows [c4HotelNoNested] = Except.ok [c4RowNoNested] ∧
    strContains c4RowNoNested "Price not available" = true ∧
    strContains c4RowNoNested "3000" = false ∧
    pyGet c4HotelNoNested "price" = PyVal.num 3000 ∧
    fetch_hotels_by_destination c4Bulk "dest-aaaaaaaa" = [c4BulkMatched] ∧
    pyGet c4BulkMatched "price" = PyVal.num 3000 ∧
    pyGet c4BulkMatched "hotelId" = pyGet c4HotelNoNested "hotelId" :=
  ⟨rfl, by decide, by decide, rfl, rfl, rfl, rfl⟩

/-! ## C1 : book_travel's boundary behavior -/

theorem plan_infix_packageNotFoundMsg (plan : String) :
    plan.data <:+: (packageNotFoundMsg plan).data := by
  unfold packageNotFoundMsg
  simp only [String.data_append]
  exact ⟨"Package with ID ".data ++ sq.data, sq.data ++ " not found.".data,
    by simp⟩

theorem notfound_infix_packageNotFoundMsg (plan : String) :
    ("not found").data <:+: (packageNotFoundMsg plan).data := by
  have h1 : ("not found").data <:+: (" not found.").data := by decide
  have h2 : (" not found.").data <:+: (packageNotFoundMsg plan).data := by
    unfold packageNotFoundMsg
    simp only [String.data_append]
    exact ⟨"Package with ID ".data ++ sq.data ++ plan.data ++ sq.data, [],
      by simp⟩
  exact h1.trans h2

/-- C1: when the token login succeeds and the package id resolves to no
package, book_travel returns (without raising) a string that contains the
package id and says it was not found; but book_travel does not always return
a string — on a found package whose destination field is a list with a plain
string first entry, the unguarded `dest_obj.get` raises `AttributeError` out
of book_travel. -/
theorem book_travel_not_found_and_raise_on_bad_shape :
    (∀ (env : Env) (plan customer date : String),
      env.tokenOk = true →
      findPackage env.packages plan = Option.none →
      book_travel env plan customer date = Except.ok (packageNotFoundMsg plan) ∧
      plan.data <:+: (packageNotFoundMsg plan).data ∧
      ("not found").data <:+: (packageNotFoundMsg plan).data) ∧
    book_travel c1BadEnv "p1" "Asha" "" = Except.error attrErr := by
  constructor
  · intro env plan customer date htok hnf
    refine ⟨?_, plan_infix_packageNotFoundMsg plan,
            notfound_infix_packageNotFoundMsg plan⟩
    simp [book_travel, tripxplo_get_package_by_id, htok, hnf, exceptOk_bind, exceptPure]
  · rfl

/-- C1 witness: with an empty package list, booking an unknown id returns the
not-found string containing the id. -/
theorem book_travel_not_found_and_raise_on_bad_shape_witness :
    book_travel c1EnvEmpty "unknown-id" "Asha" "" =
      Except.ok (packageNotFoundMsg "unknown-id") ∧
    ("unknown-id").data <:+: (packageNotFoundMsg "unknown-id").data :=
  ⟨(book_travel_not_found_and_raise_on_bad_shape.1 c1EnvEmpty "unknown-id"
      "Asha" "" rfl rfl).1,
   (book_travel_not_found_and_raise_on_bad_shape.1 c1EnvEmpty "unknown-id"
      "Asha" "" rfl rfl).2.1⟩

/-! ## C9 : the plain-string destination branch -/

/-- C9: a plain-string destination field is accepted as the flight
destination code exactly when its length is 3; for every other length the
single-line destination-not-found message is returned and neither the flight
nor the hotel section is produced. -/
theorem string_destination_three_letter_rule :
    ∀ (env : Env) (plan customer date s : String) (kvs : List (String × PyVal)),
      env.tokenOk = true →
      findPackage env.packages plan = some kvs →
      destinationDataOf (PyVal.dict kvs) = PyVal.str s →
      (s.length = 3 →
        book_travel env plan customer date =
          Except.ok (composeReport (planNameOf kvs plan) s env.flight
            (hotelSection env (PyVal.dict kvs) plan))) ∧
      (s.length ≠ 3 →
        book_travel env plan customer date =
          Except.ok (destNotFoundMsg (planNameOf kvs plan) (PyVal.str s))) := by
  intro env plan customer date s kvs htok hfp hdd
  constructor
  · intro h3
    simp [book_travel, tripxplo_get_package_by_id, htok, hfp, exceptOk_bind, exceptPure,
          resolveDest, hdd, h3]
  · intro hn3
    simp [book_travel, tripxplo_get_package_by_id, htok, hfp, exceptOk_bind, exceptPure,
          resolveDest, hdd, hn3]

/-- C9 witness: a 3-letter string destination produces the full report; an
8-character string destination (a valid hotel-matching id length) produces
the destination-not-found line. -/
theorem string_destination_three_letter_rule_witness :
    book_travel c9Env "pk1" "Asha" "" =
      Except.ok (composeReport (planNameOf c9Kvs "pk1") "GOX" c9Env.flight
        (hotelSection c9Env (PyVal.dict c9Kvs) "pk1")) ∧
    book_travel c9EnvB "pk2" "Asha" "" =
      Except.ok (destNotFoundMsg (planNameOf c9KvsB "pk2") (PyVal.str "abcdefgh")) :=
  ⟨(string_destination_three_letter_rule c9Env "pk1" "Asha" "" "GOX" c9Kvs
      rfl rfl rfl).1 rfl,
   (string_destination_three_letter_rule c9EnvB "pk2" "Asha" "" "abcdefgh"
      c9KvsB rfl rfl rfl).2 (by decide)⟩

/-! ## C5 : sorting of hotel display rows -/

theorem digitsVal_append_singleton (xs : List Char) (c : Char) :
    digitsVal (xs ++ [c]) = 10 * digitsVal xs + (c.toNat - 48) := by
  unfold digitsVal
  rw [List.foldl_append]
  rfl

theorem digitChar_props {d : ℕ} (hd : d < 10) :
    (Char.ofNat (48 + d)).isDigit = true ∧ (Char.ofNat (48 + d)).toNat - 48 = d := by
  interval_cases d <;> exact ⟨by decide, by decide⟩

theorem natReprAux_props :
    ∀ (fuel n : ℕ), n < fuel →
      natReprAux fuel n ≠ [] ∧ (natReprAux fuel n).all Char.isDigit = true ∧
      digitsVal (natReprAux fuel n) = n := by
  intro fuel
  induction fuel with
  | zero => intro n hn; omega
  | succ fuel ih =>
    intro n hn
    unfold natReprAux
    by_cases h10 : n < 10
    · rw [if_pos h10]
      obtain ⟨hdig, hval⟩ := digitChar_props h10
      refine ⟨by simp, by simp [hdig], ?_⟩
      unfold digitsVal
      simp [hval]
    · rw [if_neg h10]
      have hdiv : n / 10 < fuel := by
        have := Nat.div_lt_self (by omega : 0 < n) (by omega : 1 < 10)
        omega
      obtain ⟨hne, hall, hval⟩ := ih (n / 10) hdiv
      obtain ⟨hdig, hdval⟩ := digitChar_props (Nat.mod_lt n (by omega) : n % 10 < 10)
      refine ⟨by simp, ?_, ?_⟩
      · rw [List.all_append]
        simp [hall, hdig]
      · rw [digitsVal_append_singleton, hval, hdval]
        omega

theorem natRepr_props (n : ℕ) :
    natRepr n ≠ [] ∧ (natRepr n).all Char.isDigit = true ∧
    digitsVal (natRepr n) = n :=
  natReprAux_props (n + 1) n (by omega)

theorem isDigit_char_ne {c x : Char} (h : c.isDigit = true)
    (hx : x.isDigit = false) : c ≠ x := by
  intro he
  subst he
  rw [h] at hx
  exact absurd hx (by decide)

theorem isDigit_not_pySpace {c : Char} (h : c.isDigit = true) :
    isPySpace c = false := by
  unfold isPySpace
  have h1 := isDigit_char_ne h (show (' ' : Char).isDigit = false by decide)
  have h2 := isDigit_char_ne h (show ('\t' : Char).isDigit = false by decide)
  have h3 := isDigit_char_ne h (show ('\n' : Char).isDigit = false by decide)
  have h4 := isDigit_char_ne h (show ('\r' : Char).isDigit = false by decide)
  simp [h1, h2, h3, h4]

theorem splitOnChar_ne_nil (sep : Char) : ∀ l : List Char, splitOnChar sep l ≠ [] := by
  intro l
  induction l with
  | nil => simp [splitOnChar]
  | cons c cs ih =>
    unfold splitOnChar
    cases h : splitOnChar sep cs with
    | nil => simp
    | cons g gs =>
      by_cases hc : c = sep <;> simp [hc]

theorem splitOnChar_sep_cons (sep : Char) (l : List Char) :
    splitOnChar sep (sep :: l) = [] :: splitOnChar sep l := by
  have hstep : splitOnChar sep (sep :: l) =
      (match splitOnChar sep l with
       | [] => [[]]
       | g :: gs => if sep = sep then [] :: g :: gs else (sep :: g) :: gs) := rfl
  rw [hstep]
  cases h : splitOnChar sep l with
  | nil => exact absurd h (splitOnChar_ne_nil sep l)
  | cons g gs => simp

theorem splitOnChar_seg (sep : Char) :
    ∀ (xs ys : List Char), sep ∉ xs →
      splitOnChar sep (xs ++ sep :: ys) = xs :: splitOnChar sep ys := by
  intro xs
  induction xs with
  | nil =>
    intro ys _
    exact splitOnChar_sep_cons sep ys
  | cons c cs ih =>
    intro ys h
    have hc : c ≠ sep := fun he => h (he ▸ List.mem_cons_self c cs)
    have hcs : sep ∉ cs := fun hm => h (List.mem_cons_of_mem c hm)
    show splitOnChar sep (c :: (cs ++ sep :: ys)) = (c :: cs) :: splitOnChar sep ys
    have hstep : splitOnChar sep (c :: (cs ++ sep :: ys)) =
        (match splitOnChar sep (cs ++ sep :: ys) with
         | [] => [[]]
         | g :: gs => if c = sep then [] :: g :: gs else (c :: g) :: gs) := rfl
    rw [hstep, ih ys hcs]
    simp [hc]

theorem displayRow_data (dn mp : String) (st : PyVal) (rp ap cp : String) :
    (displayRow dn mp st rp ap cp).data =
      '|' :: ((' ' :: dn.data ++ [' ']) ++ '|' :: ((' ' :: mp.data ++ [' ']) ++
      '|' :: ((' ' :: (pyStr st).data ++ [' ']) ++ '|' :: ((' ' :: rp.data ++ [' ']) ++
      '|' :: ((' ' :: ap.data ++ [' ']) ++ '|' :: ((' ' :: cp.data ++ [' ']) ++ ['|'])))))) := by
  unfold displayRow
  simp only [String.data_append]
  simp [List.append_assoc]

theorem splitOnChar_displayRow_cell4 (dn mp : String) (st : PyVal)
    (rp ap cp : String) (h1 : '|' ∉ dn.data) (h2 : '|' ∉ mp.data)
    (h3 : '|' ∉ (pyStr st).data) (h4 : '|' ∉ rp.data) :
    (splitOnChar '|' (displayRow dn mp st rp ap cp).data).get? 4 =
      some (' ' :: rp.data ++ [' ']) := by
  rw [displayRow_data]
  have hs1 : '|' ∉ (' ' :: dn.data ++ [' ']) := by
    intro hm
    rcases List.mem_cons.mp hm with he | hm2
    · exact absurd he.symm (by decide)
    · rcases List.mem_append.mp hm2 with hm3 | hm4
      · exact h1 hm3
      · exact absurd (List.mem_singleton.mp hm4).symm (by decide)
  have hs2 : '|' ∉ (' ' :: mp.data ++ [' ']) := by
    intro hm
    rcases List.mem_cons.mp hm with he | hm2
    · exact absurd he.symm (by decide)
    · rcases List.mem_append.mp hm2 with hm3 | hm4
      · exact h2 hm3
      · exact absurd (List.mem_singleton.mp hm4).symm (by decide)
  have hs3 : '|' ∉ (' ' :: (pyStr st).data ++ [' ']) := by
    intro hm
    rcases List.mem_cons.mp hm with he | hm2
    · exact absurd he.symm (by decide)
    · rcases List.mem_append.mp hm2 with hm3 | hm4
      · exact h3 hm3
      · exact absurd (List.mem_singleton.mp hm4).symm (by decide)
  have hs4 : '|' ∉ (' ' :: rp.data ++ [' ']) := by
    intro hm
    rcases List.mem_cons.mp hm with he | hm2
    · exact absurd he.symm (by decide)
    · rcases List.mem_append.mp hm2 with hm3 | hm4
      · exact h4 hm3
      · exact absurd (List.mem_singleton.mp hm4).symm (by decide)
  rw [splitOnChar_sep_cons, splitOnChar_seg '|' _ _ hs1,
      splitOnChar_seg '|' _ _ hs2, splitOnChar_seg '|' _ _ hs3,
      splitOnChar_seg '|' _ _ hs4]
  rfl

theorem not_mem_of_all_digit {l : List Char} (hall : l.all Char.isDigit = true)
    {x : Char} (hx : x.isDigit = false) : x ∉ l := by
  intro hm
  have := List.all_eq_true.mp hall x hm
  rw [hx] at this
  exact absurd this (by decide)

theorem splitOnChar_no_sep (sep : Char) :
    ∀ l : List Char, sep ∉ l → splitOnChar sep l = [l] := by
  intro l
  induction l with
  | nil => intro _; rfl
  | cons c cs ih =>
    intro h
    have hc : c ≠ sep := fun he => h (he ▸ List.mem_cons_self c cs)
    have hcs : sep ∉ cs := fun hm => h (List.mem_cons_of_mem c hm)
    have hstep : splitOnChar sep (c :: cs) =
        (match splitOnChar sep cs with
         | [] => [[]]
         | g :: gs => if c = sep then [] :: g :: gs else (c :: g) :: gs) := rfl
    rw [hstep, ih hcs]
    simp [hc]

theorem pyFloat_natRepr (n : ℕ) :
    pyFloat? (String.mk (natRepr n)) = some ((n : ℕ) : ℚ) := by
  obtain ⟨hne, hall, hval⟩ := natRepr_props n
  cases hnr : natRepr n with
  | nil => exact absurd hnr hne
  | cons c cs =>
    rw [hnr] at hall hval
    have hcd : c.isDigit = true := by
      have hall2 := hall
      simp only [List.all_cons, Bool.and_eq_true] at hall2
      exact hall2.1
    have hcm : c ≠ '-' := isDigit_char_ne hcd (by decide)
    have hcp : c ≠ '+' := isDigit_char_ne hcd (by decide)
    have hred : pyFloat? (String.mk (c :: cs)) = pyFloatMag? (c :: cs) := by
      unfold pyFloat?
      rw [show (String.mk (c :: cs)).data = c :: cs from rfl]
      simp [hcm, hcp]
    rw [hred]
    unfold pyFloatMag?
    have hdot : ('.' : Char) ∉ c :: cs :=
      not_mem_of_all_digit hall (by decide)
    rw [splitOnChar_no_sep '.' (c :: cs) hdot]
    simp [parseDigits?, hall, hval]

theorem pyStripChars_rupee (ds : List Char) (hne : ds ≠ [])
    (hall : ds.all Char.isDigit = true) :
    pyStripChars (' ' :: '₹' :: ds ++ [' ']) = '₹' :: ds := by
  unfold pyStripChars
  have h1 : List.dropWhile isPySpace (' ' :: '₹' :: ds ++ [' ']) =
      '₹' :: (ds ++ [' ']) := by
    rw [show (' ' :: '₹' :: ds ++ [' ']) = (' ' :: ('₹' :: (ds ++ [' ']))) from rfl]
    rw [List.dropWhile_cons_of_pos (show isPySpace ' ' = true by decide)]
    exact List.dropWhile_cons_of_neg (by decide)
  rw [h1]
  have h2 : ('₹' :: (ds ++ [' '])).reverse = ' ' :: (ds.reverse ++ ['₹']) := by
    simp
  rw [h2, List.dropWhile_cons_of_pos (by decide)]
  cases hdr : ds.reverse with
  | nil => exact absurd (by simpa using congrArg List.reverse hdr) hne
  | cons d ds' =>
    have hdm : d ∈ ds := by
      have : d ∈ ds.reverse := hdr ▸ List.mem_cons_self d ds'
      exact List.mem_reverse.mp this
    have hdd : d.isDigit = true := List.all_eq_true.mp hall d hdm
    have hds : isPySpace d = false := isDigit_not_pySpace hdd
    rw [List.cons_append,
        List.dropWhile_cons_of_neg (show ¬ isPySpace d = true by simp [hds]),
        ← List.cons_append, ← hdr]
    simp

theorem filter_ne_of_all_digit {l : List Char} (hall : l.all Char.isDigit = true)
    {x : Char} (hx : x.isDigit = false) :
    l.filter (fun c => c ≠ x) = l := by
  apply List.filter_eq_self.mpr
  intro c hc
  have := List.all_eq_true.mp hall c hc
  simp only [ne_eq, decide_eq_true_eq]
  exact isDigit_char_ne this hx

theorem extract_price_of_num (dn mp : String) (st : PyVal) (ap cp : String)
    (n : ℕ) (h1 : '|' ∉ dn.data) (h2 : '|' ∉ mp.data)
    (h3 : '|' ∉ (pyStr st).data) (hn : n ≠ 0) :
    extract_price (displayRow dn mp st (formatPrice (PyVal.num (n : ℚ))) ap cp) =
      ((n : ℚ) : WithTop ℚ) := by
  obtain ⟨hne, hall, _⟩ := natRepr_props n
  have htr : truthy (PyVal.num (n : ℚ)) = true := by
    simp [truthy]
    exact_mod_cast hn
  have hps : pyStr (PyVal.num (n : ℚ)) = String.mk (natRepr n) := by
    show ratRepr (n : ℚ) = String.mk (natRepr n)
    unfold ratRepr intRepr
    rw [if_pos (by simp : ((n : ℚ)).den = 1),
        if_neg (by simp : ¬ ((n : ℚ)).num < 0)]
    have he : ((n : ℚ)).num.toNat = n := by simp
    rw [he]
  have hfp : formatPrice (PyVal.num (n : ℚ)) = rupee ++ String.mk (natRepr n) := by
    unfold formatPrice
    rw [if_pos htr, hps]
  have hrp : (rupee ++ String.mk (natRepr n)).data = '₹' :: natRepr n := by
    rw [String.data_append]
    rfl
  have h4 : '|' ∉ (rupee ++ String.mk (natRepr n)).data := by
    rw [hrp]
    intro hm
    rcases List.mem_cons.mp hm with he | hm2
    · exact absurd he.symm (by decide)
    · exact not_mem_of_all_digit hall (by decide) hm2
  rw [hfp]
  unfold extract_price
  simp only [splitOnChar_displayRow_cell4 dn mp st _ ap cp h1 h2 h3 h4]
  unfold parsePriceCell
  rw [hrp]
  rw [show (' ' :: ('₹' :: natRepr n) ++ [' ']) = (' ' :: '₹' :: natRepr n ++ [' '])
        from rfl]
  rw [pyStripChars_rupee (natRepr n) hne hall]
  rw [show (('₹' :: natRepr n).contains '₹') = true by simp [List.contains_cons]]
  rw [if_pos rfl]
  rw [show ('₹' :: natRepr n).filter (fun c => c ≠ '₹') = natRepr n by
        rw [List.filter_cons_of_neg (by simp)]
        exact filter_ne_of_all_digit hall (by decide)]
  rw [filter_ne_of_all_digit hall (by decide)]
  rw [pyFloat_natRepr n]

theorem extract_price_of_falsy (dn mp : String) (st : PyVal) (ap cp : String)
    (v : PyVal) (h1 : '|' ∉ dn.data) (h2 : '|' ∉ mp.data)
    (h3 : '|' ∉ (pyStr st).data) (hv : truthy v = false) :
    extract_price (displayRow dn mp st (formatPrice v) ap cp) = ⊤ := by
  have hfp : formatPrice v = "Price not available" := by simp [formatPrice, hv]
  rw [hfp]
  unfold extract_price
  simp only [splitOnChar_displayRow_cell4 dn mp st "Price not available" ap cp
    h1 h2 h3 (by decide)]
  rfl

theorem sortRows_sorted_and_perm (rows : List String) :
    (sortRowsByPrice rows).Pairwise (fun a b => extract_price a ≤ extract_price b) ∧
    (sortRowsByPrice rows).Perm rows := by
  haveI ht : IsTotal String (fun a b => extract_price a ≤ extract_price b) :=
    ⟨fun a b => le_total _ _⟩
  haveI htr : IsTrans String (fun a b => extract_price a ≤ extract_price b) :=
    ⟨fun a b c hab hbc => le_trans hab hbc⟩
  exact ⟨List.sorted_insertionSort _ rows, List.perm_insertionSort _ rows⟩

/-- C5: the hotel-branch sort orders rows by ascending `extract_price` while
permuting nothing away; a row whose price key is `⊤` (missing/unparseable) is
followed only by `⊤` rows, so such rows sort last; the sort key of a rendered
row with a truthy integral room price is that price, and with a falsy price
(missing, zero or empty) is `⊤`; and the worked example `[₹8000, missing,
₹3000]` sorts to `[₹3000, ₹8000, missing]`. -/
theorem hotel_rows_sorted_by_numeric_price :
    (∀ rows : List String,
      (sortRowsByPrice rows).Pairwise
        (fun a b => extract_price a ≤ extract_price b) ∧
      (sortRowsByPrice rows).Perm rows) ∧
    (∀ (rows l₁ l₂ : List String) (r r' : String),
      sortRowsByPrice rows = l₁ ++ r :: l₂ → r' ∈ l₂ → extract_price r = ⊤ →
      extract_price r' = ⊤) ∧
    (∀ (dn mp : String) (st : PyVal) (ap cp : String) (n : ℕ),
      '|' ∉ dn.data → '|' ∉ mp.data → '|' ∉ (pyStr st).data → n ≠ 0 →
      extract_price (displayRow dn mp st (formatPrice (PyVal.num (n : ℚ))) ap cp) =
        ((n : ℚ) : WithTop ℚ)) ∧
    (∀ (dn mp : String) (st : PyVal) (ap cp : String) (v : PyVal),
      '|' ∉ dn.data → '|' ∉ mp.data → '|' ∉ (pyStr st).data → truthy v = false →
      extract_price (displayRow dn mp st (formatPrice v) ap cp) = ⊤) ∧
    (hotelRows [exHotelThreeRows] =
      Except.ok [exRow "₹8000", exRow "Price not available", exRow "₹3000"] ∧
     sortRowsByPrice [exRow "₹8000", exRow "Price not available", exRow "₹3000"] =
      [exRow "₹3000", exRow "₹8000", exRow "Price not available"]) := by
  refine ⟨sortRows_sorted_and_perm, ?_, extract_price_of_num,
          extract_price_of_falsy, rfl, rfl⟩
  intro rows l₁ l₂ r r' heq hm ht
  have hp := (sortRows_sorted_and_perm rows).1
  rw [heq] at hp
  have hcons := (List.pairwise_append.mp hp).2.1
  have hrel := (List.pairwise_cons.mp hcons).1 r' hm
  rw [ht] at hrel
  exact top_le_iff.mp hrel

/-- C5 witness: the key of a rendered ₹4500 row is 4500, the key of a
missing-price row is `⊤`, and the example rows sort with the missing row
last. -/
theorem hotel_rows_sorted_by_numeric_price_witness :
    extract_price (displayRow "Hotel A (Deluxe)" "CP" (PyVal.str "peak")
      (formatPrice (PyVal.num ((4500 : ℕ) : ℚ))) "₹100" "₹50") =
      (((4500 : ℕ) : ℚ) : WithTop ℚ) ∧
    extract_price (displayRow "Hotel A (Deluxe)" "CP" (PyVal.str "peak")
      (formatPrice (PyVal.str "")) "₹100" "₹50") = ⊤ ∧
    sortRowsByPrice [exRow "₹8000", exRow "Price not available", exRow "₹3000"] =
      [exRow "₹3000", exRow "₹8000", exRow "Price not available"] :=
  ⟨hotel_rows_sorted_by_numeric_price.2.2.1 "Hotel A (Deluxe)" "CP"
      (PyVal.str "peak") "₹100" "₹50" 4500 (by decide) (by decide) (by decide)
      (by decide),
   hotel_rows_sorted_by_numeric_price.2.2.2.1 "Hotel A (Deluxe)" "CP"
      (PyVal.str "peak") "₹100" "₹50" (PyVal.str "") (by decide) (by decide)
      (by decide) (by decide),
   hotel_rows_sorted_by_numeric_price.2.2.2.2.2⟩

end BookingAgent
